import Mathlib

/-!
Verification development for the gollm provider library.

The Go sources are shallowly embedded: JSON documents become the inductive
`JValue`, Go `map[string]T` values become association lists updated in place,
and each provider method becomes a Lean function translated from the
corresponding Go function.  Fallible Go functions return `Except String`,
and a Go runtime panic is modelled by the `GoResult.panicked` outcome.
-/

/-- A JSON value; request bodies, response payloads and schemas are built
from this type (Go marshals `map[string]any` into exactly this shape). -/
inductive JValue where
  | null : JValue
  | bool (b : Bool) : JValue
  | num (n : Int) : JValue
  | str (s : String) : JValue
  | arr (elems : List JValue) : JValue
  | obj (fields : List (String × JValue)) : JValue

/-- Association-list lookup; stands in for a read of a Go map. -/
def alLookup {α : Type} : List (String × α) → String → Option α
  | [], _ => none
  | (k, v) :: rest, key => if k == key then some v else alLookup rest key

/-- Association-list insert replacing an existing binding; stands in for a
Go map assignment `m[key] = val`. -/
def alInsert {α : Type} : List (String × α) → String → α → List (String × α)
  | [], key, val => [(key, val)]
  | (k, v) :: rest, key, val =>
    if k == key then (k, val) :: rest else (k, v) :: alInsert rest key val

/-- Association-list key removal; stands in for Go `delete(m, key)`. -/
def alErase {α : Type} : List (String × α) → String → List (String × α)
  | [], _ => []
  | (k, v) :: rest, key =>
    if k == key then alErase rest key else (k, v) :: alErase rest key

/-- Whether the string `sub` occurs inside `s` (Go `strings.Contains`). -/
def listContainsSub (sub : List Char) : List Char → Bool
  | [] => sub.isEmpty
  | c :: rest => sub.isPrefixOf (c :: rest) || listContainsSub sub rest

/-- Go `strings.Contains`. -/
def goContains (s sub : String) : Bool :=
  listContainsSub sub.toList s.toList

/-- Fuel-driven splitting of a character list at every occurrence of `sep`;
structural in the fuel so that it evaluates inside the kernel. -/
def splitFuel (sep : List Char) : Nat → List Char → List (List Char)
  | 0, l => [l]
  | _ + 1, [] => [[]]
  | fuel + 1, c :: rest =>
    if sep.isPrefixOf (c :: rest) then
      [] :: splitFuel sep fuel ((c :: rest).drop sep.length)
    else
      match splitFuel sep fuel rest with
      | [] => [[c]]
      | h :: t => (c :: h) :: t

/-- Go `strings.Split` for a non-empty separator (the only way the library
calls it). -/
def goSplit (s sep : String) : List String :=
  if sep.isEmpty then [s]
  else (splitFuel sep.toList s.toList.length s.toList).map (fun cs => String.mk cs)

/-- Go `strings.Join`. -/
def goJoin (parts : List String) (sep : String) : String :=
  String.intercalate sep parts

/-- Whether an `Except` carries a success (Go: the error result is nil). -/
def isOkE {ε α : Type} : Except ε α → Bool
  | .ok _ => true
  | .error _ => false

/-! ## SSE framing layer (src/llm/stream.go, `SSEDecoder.Next`)

The decoder is line oriented; we embed one call of `Next` as a function from
the remaining input lines to an optional frame plus the unconsumed lines. -/

/-- An SSE frame as assembled by `SSEDecoder.Next`: the accumulated `event:`
field and the raw bytes of the `data:` buffer. -/
structure SSEEvent where
  type : String
  data : String
deriving Repr

/-- Strip the single optional space after the colon of an SSE field. -/
def stripLeadingSpace (value : String) : String :=
  match value.toList with
  | ' ' :: rest => String.mk rest
  | _ => value

/-- The field-accumulation loop of `SSEDecoder.Next`: `eventAcc` is the
`event` local, `dataAcc` the `data` buffer.  An empty line dispatches the
frame; end of input without an empty line returns no frame. -/
def sseLoop (eventAcc dataAcc : String) : List String → Option (SSEEvent × List String)
  | [] => none
  | line :: rest =>
    if line == "" then some ({ type := eventAcc, data := dataAcc }, rest)
    else
      match goSplit line ":" with
      | [] => sseLoop eventAcc dataAcc rest
      | name :: valueParts =>
        let value := stripLeadingSpace (String.intercalate ":" valueParts)
        match name with
        | "" => sseLoop eventAcc dataAcc rest
        | "event" => sseLoop value dataAcc rest
        | "data" => sseLoop eventAcc (dataAcc ++ value ++ "\n") rest
        | _ => sseLoop eventAcc dataAcc rest

/-- One call of `SSEDecoder.Next` over the remaining input lines. -/
def sseNext (lines : List String) : Option (SSEEvent × List String) :=
  sseLoop "" "" lines

/-- C6 as stated expects the frame's data to be exactly `a\nb`; the decoder
writes a newline after every `data:` value and never trims, so the frame
carries `a\nb\n`. -/
theorem c6_sse_trailing_newline :
    (sseNext ["data: a", "data: b", ""]).map (fun r => r.1.data) = some "a\nb\n"
      ∧ ("a\nb\n" : String) ≠ "a\nb" := by
  constructor
  · rfl
  · decide

/-- C6 amended: on input lines `data: a`, `data: b`, empty line, the framer
emits exactly one frame; its data field is the two values each followed by a
newline, i.e. `a\nb\n` (the values are joined by newlines but a trailing
newline remains), and no further frame is emitted. -/
theorem c6_sse_frame_amended :
    sseNext ["data: a", "data: b", ""]
        = some ({ type := "", data := "a\nb\n" }, [])
      ∧ sseNext ([] : List String) = none := by
  exact ⟨rfl, rfl⟩

/-! ## Capability descriptors (src/unnamed/part_006, capability_types.go) -/

/-- `StructuredResponseConfig` from part_006. -/
structure StructuredResponseConfig where
  systemPromptHint : String := ""
  supportedFormats : List String := []
  maxSchemaDepth : Int := 0
  requiresToolUse : Bool := false
  requiresJSONMode : Bool := false

/-- `FunctionCallingConfig` from part_006. -/
structure FunctionCallingConfig where
  maxFunctions : Int := 0
  maxParallelCalls : Int := 0
  supportsParallel : Bool := false
  requiresToolRole : Bool := false
  supportsStreaming : Bool := false

/-- `StreamingConfig` from part_006. -/
structure StreamingConfig where
  chunkDelimiter : String := ""
  bufferSize : Int := 0
  supportsSSE : Bool := false
  supportsUsage : Bool := false

/-- `VisionConfig` from part_006. -/
structure VisionConfig where
  supportedFormats : List String := []
  maxImageSize : Int := 0
  maxImagesPerRequest : Int := 0
  supportsImageGen : Bool := false
  supportsVideoFrames : Bool := false

/-- `CachingConfig` from part_006. -/
structure CachingConfig where
  cacheKeyStrategy : String := ""
  maxCacheSize : Int := 0
  cacheTTLSeconds : Int := 0

/-- `SystemPromptConfig` from part_006. -/
structure SystemPromptConfig where
  maxLength : Int := 0
  supportsMultiple : Bool := false

/-- The sealed `CapabilityConfig` union of part_006, one variant per
descriptor kind. -/
inductive CapabilityConfig where
  | structuredResponse (c : StructuredResponseConfig)
  | functionCalling (c : FunctionCallingConfig)
  | streaming (c : StreamingConfig)
  | vision (c : VisionConfig)
  | caching (c : CachingConfig)
  | systemPrompt (c : SystemPromptConfig)

/-- `Capability` is a string tag in capability_types.go. -/
abbrev Capability := String

def capStructuredResponse : Capability := "structured_response"

def capStreaming : Capability := "streaming"

def capFunctionCalling : Capability := "function_calling"

def capVision : Capability := "vision"

def capSystemPrompt : Capability := "system_prompt"

def capCaching : Capability := "caching"

/-! ## Capability registry, first variant
(src/providers/capability_registry.go)

The registry is a map keyed by `provider + ":" + model` whose values are
inner maps from capability tag to stored descriptor.  The stored value is
an interface in Go and may in principle be nil, so we store
`Option CapabilityConfig`; `Register` is the only writer and refuses nil. -/

/-- State of the capability_registry.go registry. -/
abbrev RegistryV1 := List (String × List (Capability × Option CapabilityConfig))

/-- `makeKey` from capability_registry.go. -/
def makeKeyV1 (provider model : String) : String :=
  provider ++ ":" ++ model

/-- `CapabilityRegistry.Register`: nil config is a no-op; otherwise the
descriptor is stored under the key's inner capability map. -/
def registerV1 (r : RegistryV1) (provider model : String) (cap : Capability)
    (config : Option CapabilityConfig) : RegistryV1 :=
  match config with
  | none => r
  | some cfg =>
    let key := makeKeyV1 provider model
    match alLookup r key with
    | none => alInsert r key [(cap, some cfg)]
    | some caps => alInsert r key (alInsert caps cap (some cfg))

/-- `CapabilityRegistry.HasCapability`: key presence in the inner map. -/
def hasCapabilityV1 (r : RegistryV1) (provider model : String) (cap : Capability) : Bool :=
  match alLookup r (makeKeyV1 provider model) with
  | none => false
  | some caps => (alLookup caps cap).isSome

/-- `CapabilityRegistry.GetConfig`: `caps[cap]`, which is the stored value
or the nil interface when the key or capability is absent. -/
def getConfigV1 (r : RegistryV1) (provider model : String) (cap : Capability) :
    Option CapabilityConfig :=
  match alLookup r (makeKeyV1 provider model) with
  | none => none
  | some caps =>
    match alLookup caps cap with
    | none => none
    | some v => v

/-- A register call as data, so a whole initialization sequence can be
quantified over. -/
structure RegOpV1 where
  provider : String
  model : String
  cap : Capability
  config : Option CapabilityConfig

/-- Run a sequence of `Register` calls against the empty registry. -/
def applyOpsV1 (ops : List RegOpV1) : RegistryV1 :=
  ops.foldl (fun r op => registerV1 r op.provider op.model op.cap op.config) []

/-! ## Capability registry, second variant (src/unnamed/part_002)

Keys are `provider + "/" + model`; the per-model store is a slice indexed
by the protobuf capability enum, holding `any` values.  A slot is `nil`
both when never written and when `RegisterCapability` stored nil, so the
slot type is `Option ConfigV2`.  All declared enum values fit the slice, so
the `int(capType) < len(r)` bound always holds for them and the slice is
modelled as a total function on the enum. -/

/-- The protobuf capability-type enum (`llmx.CapabilityType`), of which the
registry only ever uses equality and indexing. -/
inductive CapTypeV2 where
  | unspecified
  | structuredResponse
  | streaming
  | functionCalling
  | vision
  | toolUse
  | systemPrompt
  | caching
deriving DecidableEq

/-- Opaque stand-in for the protobuf capability payloads
(`llmx.StructuredResponse` etc.); they live outside src/ and part_002
stores them as `any` without ever inspecting them. -/
structure ConfigV2 where
  tag : String

/-- `ModelCapabilities` of part_002: a slice indexed by capability type
whose slots hold a possibly-nil `any`. -/
def ModelCapabilitiesV2 := CapTypeV2 → Option ConfigV2

/-- `NewModelCapabilities`: all slots nil. -/
def newModelCapabilitiesV2 : ModelCapabilitiesV2 := fun _ => none

/-- `ModelCapabilities.AddCapability`: overwrite the slot with the given
(possibly nil) value. -/
def mcAddCapability (r : ModelCapabilitiesV2) (capType : CapTypeV2)
    (config : Option ConfigV2) : ModelCapabilitiesV2 :=
  fun c => if c = capType then config else r c

/-- `ModelCapabilities.HasCapability`: slot non-nil. -/
def mcHasCapability (r : ModelCapabilitiesV2) (capType : CapTypeV2) : Bool :=
  (r capType).isSome

/-- `ModelCapabilities.GetCapability`: the slot value. -/
def mcGetCapability (r : ModelCapabilitiesV2) (capType : CapTypeV2) : Option ConfigV2 :=
  r capType

/-- State of the part_002 registry. -/
def RegistryV2 := List (String × ModelCapabilitiesV2)

/-- `makeSlug` from part_002. -/
def makeSlug (provider model : String) : String :=
  provider ++ "/" ++ model

/-- `CapabilityRegistry.RegisterCapability` from part_002: LoadOrStore the
per-model slice, then overwrite the slot — with no nil guard. -/
def registerCapabilityV2 (r : RegistryV2) (provider model : String)
    (capType : CapTypeV2) (config : Option ConfigV2) : RegistryV2 :=
  let key := makeSlug provider model
  match alLookup r key with
  | none => alInsert r key (mcAddCapability newModelCapabilitiesV2 capType config)
  | some mc => alInsert r key (mcAddCapability mc capType config)

/-- `CapabilityRegistry.HasCapability` from part_002. -/
def hasCapabilityV2 (r : RegistryV2) (provider model : String) (capType : CapTypeV2) : Bool :=
  match alLookup r (makeSlug provider model) with
  | none => false
  | some mc => mcHasCapability mc capType

/-- `CapabilityRegistry.GetConfig` from part_002. -/
def getConfigV2 (r : RegistryV2) (provider model : String) (capType : CapTypeV2) :
    Option ConfigV2 :=
  match alLookup r (makeSlug provider model) with
  | none => none
  | some mc => mcGetCapability mc capType

/-! ### Registry lemmas -/

theorem alLookup_alInsert {α : Type} (l : List (String × α)) (k : String) (v : α)
    (k' : String) :
    alLookup (alInsert l k v) k' = if k' = k then some v else alLookup l k' := by
  induction l with
  | nil =>
    simp only [alInsert, alLookup, beq_iff_eq]
    by_cases h : k' = k
    · simp [h]
    · have h' : ¬k = k' := fun he => h he.symm
      simp [h, h']
  | cons head rest ih =>
    obtain ⟨hk, hv⟩ := head
    by_cases h1 : hk = k
    · subst h1
      by_cases h2 : k' = hk
      · subst h2
        simp [alInsert, alLookup]
      · have h2' : ¬hk = k' := fun he => h2 he.symm
        simp [alInsert, alLookup, beq_iff_eq, h2, h2']
    · by_cases h2 : k' = hk
      · subst h2
        simp [alInsert, alLookup, beq_iff_eq, h1]
      · have h2' : ¬hk = k' := fun he => h2 he.symm
        simp [alInsert, alLookup, beq_iff_eq, h1, h2', ih]

/-- The stored-descriptor invariant of the capability_registry.go registry:
every value present in an inner map is non-nil. -/
def StoredSomeV1 (r : RegistryV1) : Prop :=
  ∀ key caps, alLookup r key = some caps →
    ∀ c v, alLookup caps c = some v → v ≠ none

theorem storedSome_nil : StoredSomeV1 [] := by
  intro key caps h
  simp [alLookup] at h

theorem storedSome_register (r : RegistryV1) (p m : String) (c : Capability)
    (cfg : Option CapabilityConfig) (h : StoredSomeV1 r) :
    StoredSomeV1 (registerV1 r p m c cfg) := by
  match cfg with
  | none => exact h
  | some cfg' =>
    intro key caps hcaps cap v hv
    simp only [registerV1] at hcaps
    cases hlook : alLookup r (makeKeyV1 p m) with
    | none =>
      rw [hlook] at hcaps
      rw [alLookup_alInsert] at hcaps
      by_cases hk : key = makeKeyV1 p m
      · simp only [hk, if_true] at hcaps
        cases hcaps
        simp only [alLookup, beq_iff_eq] at hv
        by_cases hc : c = cap
        · simp only [hc, if_true] at hv
          cases hv
          simp
        · simp [hc] at hv
      · simp only [hk, if_false] at hcaps
        exact h key caps hcaps cap v hv
    | some caps0 =>
      rw [hlook] at hcaps
      rw [alLookup_alInsert] at hcaps
      by_cases hk : key = makeKeyV1 p m
      · simp only [hk, if_true] at hcaps
        cases hcaps
        rw [alLookup_alInsert] at hv
        by_cases hc : cap = c
        · simp only [hc, if_true] at hv
          cases hv
          simp
        · simp only [hc, if_false] at hv
          exact h (makeKeyV1 p m) caps0 hlook cap v hv
      · simp only [hk, if_false] at hcaps
        exact h key caps hcaps cap v hv

theorem storedSome_applyOps (ops : List RegOpV1) :
    StoredSomeV1 (applyOpsV1 ops) := by
  suffices hgen : ∀ (l : List RegOpV1) (r : RegistryV1), StoredSomeV1 r →
      StoredSomeV1 (l.foldl (fun r op => registerV1 r op.provider op.model op.cap op.config) r) by
    exact hgen ops [] storedSome_nil
  intro l
  induction l with
  | nil => intro r h; exact h
  | cons op rest ih =>
    intro r h
    exact ih _ (storedSome_register r op.provider op.model op.cap op.config h)

theorem hasCap_iff_getConfig_of_storedSome (r : RegistryV1)
    (h : StoredSomeV1 r) (p m : String) (c : Capability) :
    hasCapabilityV1 r p m c = (getConfigV1 r p m c).isSome := by
  simp only [hasCapabilityV1, getConfigV1]
  cases hlook : alLookup r (makeKeyV1 p m) with
  | none => simp
  | some caps =>
    simp only []
    cases hcap : alLookup caps c with
    | none => simp [hcap]
    | some v =>
      have hne : v ≠ none := h (makeKeyV1 p m) caps hlook c v hcap
      cases v with
      | none => exact absurd rfl hne
      | some cfg => simp [hcap]

/-- C7 counterexample: in the part_002 registry, registering a descriptor
and then registering nil for the same slot flips `hasCapability` from true
to false — registering a null descriptor is not a no-op there. -/
theorem c7_nil_register_clears :
    hasCapabilityV2
        (registerCapabilityV2 [] "cohere" "command-r" .streaming (some ⟨"sse"⟩))
        "cohere" "command-r" .streaming = true
      ∧ hasCapabilityV2
          (registerCapabilityV2
            (registerCapabilityV2 [] "cohere" "command-r" .streaming (some ⟨"sse"⟩))
            "cohere" "command-r" .streaming none)
          "cohere" "command-r" .streaming = false := by
  exact ⟨rfl, rfl⟩

/-- C7 amended: `hasCapability` answers true exactly when `getConfig` is
non-null — in the capability_registry.go registry for every state reachable
by register operations, and in the part_002 registry in every state; absent
keys answer false/null in both; `Register` of capability_registry.go treats
a null descriptor as a no-op, while part_002's `RegisterCapability` stores
the null, clearing any previously registered descriptor for that slot. -/
theorem c7_registry_amended :
    (∀ (ops : List RegOpV1) (p m : String) (c : Capability),
        hasCapabilityV1 (applyOpsV1 ops) p m c = (getConfigV1 (applyOpsV1 ops) p m c).isSome)
      ∧ (∀ (r : RegistryV1) (p m : String) (c : Capability),
          registerV1 r p m c none = r)
      ∧ (∀ (r : RegistryV2) (p m : String) (c : CapTypeV2),
          hasCapabilityV2 r p m c = (getConfigV2 r p m c).isSome)
      ∧ (∀ (p m : String) (c : Capability),
          hasCapabilityV1 [] p m c = false ∧ getConfigV1 [] p m c = none)
      ∧ (∀ (p m : String) (c : CapTypeV2),
          hasCapabilityV2 [] p m c = false ∧ getConfigV2 [] p m c = none) := by
  refine ⟨?_, ?_, ?_, ?_, ?_⟩
  · intro ops p m c
    exact hasCap_iff_getConfig_of_storedSome _ (storedSome_applyOps ops) p m c
  · intro r p m c
    rfl
  · intro r p m c
    simp only [hasCapabilityV2, getConfigV2, mcHasCapability, mcGetCapability]
    cases alLookup r (makeSlug p m) <;> rfl
  · intro p m c
    exact ⟨rfl, rfl⟩
  · intro p m c
    exact ⟨rfl, rfl⟩

/-! ## Canonical data model -/

/-- The canonical `Usage` record. -/
structure Usage where
  inputTokens : Int := 0
  outputTokens : Int := 0
  cacheCreationTokens : Int := 0
  cacheReadTokens : Int := 0
  reasoningTokens : Int := 0
deriving Repr

/-- Modelled from the spec: `NewUsage` lives outside src/ (only its call
sites are in src/).  Per §4.4 the constructor signature is
`newUsage(inputTokens, cacheCreationTokens, outputTokens, cacheWriteTokens,
reasoningTokens)`; the fourth argument is mapped to the cache-read field of
`Usage`, the only cache slot left, and every call site in src/ passes 0 for
it or for the fifth.  No claim depends on the numeric routing. -/
def NewUsage (input cacheCreation output cacheWrite reasoning : Int) : Usage :=
  { inputTokens := input
    outputTokens := output
    cacheCreationTokens := cacheCreation
    cacheReadTokens := cacheWrite
    reasoningTokens := reasoning }

/-- The canonical `Response`: `content` is the `Text` variant when present
(`none` models a nil/absent content, as in usage-only responses). -/
structure Response where
  role : String := ""
  content : Option String := none
  usage : Option Usage := none
deriving Repr

/-- `ToolCall` of a canonical `Message`. -/
structure ToolCall where
  id : String := ""
  type : String := ""
  functionName : String := ""
  functionArguments : JValue := JValue.null

/-- The canonical `Message`. -/
structure Message where
  role : String := ""
  content : String := ""
  name : String := ""
  toolCallID : String := ""
  toolCalls : List ToolCall := []
  cacheType : String := ""

/-- The canonical `Request`; `responseSchema` holds the JSON form of the
schema, `none` when absent. -/
structure Request where
  model : String := ""
  systemPrompt : String := ""
  messages : List Message := []
  responseSchema : Option JValue := none

/-- `models.Tool`: `{function:{name, description, parameters}}`. -/
structure Tool where
  functionName : String := ""
  functionDescription : String := ""
  functionParameters : JValue := JValue.null

/-- A value held in a Go `map[string]any` options map: either JSON-like
data or a `[]models.Tool` (the only non-JSON payload the adapters store). -/
inductive OptValue where
  | jval (j : JValue)
  | toolList (ts : List Tool)

/-- An adapter options map. -/
abbrev Options := List (String × OptValue)

/-- The JSON rendering of an options value, as produced when the final
request body is marshaled. -/
def OptValue.toJValue : OptValue → JValue
  | .jval j => j
  | .toolList ts =>
    JValue.arr (ts.map (fun t => JValue.obj
      [("function", JValue.obj
        [("name", .str t.functionName),
         ("description", .str t.functionDescription),
         ("parameters", t.functionParameters)])]))

/-- Go type assertion `options[key].(string)` with the `ok, non-empty`
pattern the adapters use. -/
def optString (options : Options) (key : String) : Option String :=
  match alLookup options key with
  | some (.jval (.str s)) => some s
  | _ => none

/-- Go type assertion `options[key].([]models.Tool)`. -/
def optTools (options : Options) (key : String) : Option (List Tool) :=
  match alLookup options key with
  | some (.toolList ts) => some ts
  | _ => none

/-- Field accessors over a decoded JSON object; Go's unmarshal leaves the
struct field at its zero value when the key is absent.  (A type-mismatched
document would make Go's unmarshal fail as a whole; no claim exercises
that, and such inputs are not used below.) -/
def jGetStr (fields : List (String × JValue)) (key : String) : String :=
  match alLookup fields key with
  | some (.str s) => s
  | _ => ""

/-- Integer field accessor, defaulting to 0. -/
def jGetInt (fields : List (String × JValue)) (key : String) : Int :=
  match alLookup fields key with
  | some (.num n) => n
  | _ => 0

/-- Boolean field accessor, defaulting to false. -/
def jGetBool (fields : List (String × JValue)) (key : String) : Bool :=
  match alLookup fields key with
  | some (.bool b) => b
  | _ => false

/-- Nested-object accessor: `some` exactly when the key holds an object
(a nil pointer field otherwise). -/
def jGetObj (fields : List (String × JValue)) (key : String) :
    Option (List (String × JValue)) :=
  match alLookup fields key with
  | some (.obj fs) => some fs
  | _ => none

/-- Array accessor: the decoded slice, empty when absent. -/
def jGetArr (fields : List (String × JValue)) (key : String) : List JValue :=
  match alLookup fields key with
  | some (.arr xs) => xs
  | _ => []

/-! ## Token stream (src/llm/stream.go, `providerStream`)

`Next` loops `processNextEvent` until a token, EOF or an error; we embed
the loop as a function from the list of decoder events to the list of
yielded tokens.  An event's `data` is `none` when the frame's data bytes
are empty, and `some j` when they decode to the JSON value `j`. -/

/-- `StreamToken` from stream.go. -/
structure StreamToken where
  text : String := ""
  type : String := ""
  index : Nat := 0
  inputTokens : Int := 0
  outputTokens : Int := 0
deriving Repr, DecidableEq

/-- The outcome of `Provider.ParseStreamResponse` as discriminated by
`processEventData`: a response, the "skip resp" sentinel, `io.EOF`, or any
other error (which the loop treats as a recoverable partial frame). -/
inductive ParseResult where
  | ok (resp : Option Response)
  | skipResp
  | eofSig
  | otherErr

/-- A decoder event as consumed by `processNextEvent`. -/
structure StreamEvent where
  type : String := ""
  data : Option JValue := none

/-- `providerStream.createStreamToken`: the token's `Index` is the stream's
`currentIndex` field. -/
def createStreamToken (currentIndex : Nat) (eventType : String)
    (resp : Option Response) : StreamToken :=
  let tok : StreamToken :=
    { text := "", type := eventType, index := currentIndex }
  match resp with
  | none => tok
  | some r =>
    let tok := match r.content with
      | some t => { tok with text := t }
      | none => tok
    match r.usage with
    | some u => { tok with inputTokens := u.inputTokens, outputTokens := u.outputTokens }
    | none => tok

/-- The `providerStream.Next` loop over the remaining decoder events:
empty-data frames, skip errors and parse errors continue; `io.EOF` (from
the provider or from decoder exhaustion) ends the stream.  `currentIndex`
is initialized to 0 by `newProviderStream` and — exactly as in the source —
never incremented anywhere. -/
def processEvents (parse : JValue → ParseResult) (currentIndex : Nat) :
    List StreamEvent → List StreamToken
  | [] => []
  | e :: rest =>
    match e.data with
    | none => processEvents parse currentIndex rest
    | some j =>
      match parse j with
      | .ok resp => createStreamToken currentIndex e.type resp ::
          processEvents parse currentIndex rest
      | .skipResp => processEvents parse currentIndex rest
      | .eofSig => []
      | .otherErr => processEvents parse currentIndex rest

/-- Usage decoding shared by the Anthropic stream events. -/
def anthropicUsageOf (u : List (String × JValue)) : Usage :=
  NewUsage (jGetInt u "input_tokens") (jGetInt u "cache_creation_input_tokens")
    (jGetInt u "output_tokens") 0 (jGetInt u "cache_read_input_tokens")

/-- `AnthropicProvider.ParseStreamResponse` on a decoded event payload.
The byte-level guards (blank chunk, `[DONE]`) precede JSON decoding in the
source and are outside this decoded-payload embedding; all "skip token"
errors map to `otherErr`, which the stream loop treats the same way. -/
def anthropicParseStreamResponse (j : JValue) : ParseResult :=
  match j with
  | .obj fields =>
    match jGetStr fields "type" with
    | "content_block_delta" =>
      match jGetObj fields "delta" with
      | some delta =>
        if jGetStr delta "type" = "text_delta" ∧ jGetStr delta "text" ≠ "" then
          .ok (some { content := some (jGetStr delta "text") })
        else .otherErr
      | none => .otherErr
    | "message_start" =>
      match jGetObj fields "message" with
      | some msg =>
        match jGetObj msg "usage" with
        | some u => .ok (some { usage := some (anthropicUsageOf u) })
        | none => .otherErr
      | none => .otherErr
    | "message_delta" =>
      match jGetObj fields "usage" with
      | some u => .ok (some { usage := some (anthropicUsageOf u) })
      | none => .otherErr
    | "message_stop" => .eofSig
    | _ => .otherErr
  | _ => .otherErr

theorem createStreamToken_index (i : Nat) (ty : String) (r : Option Response) :
    (createStreamToken i ty r).index = i := by
  cases r with
  | none => rfl
  | some resp =>
    cases hc : resp.content <;> cases hu : resp.usage <;>
      simp [createStreamToken, hc, hu]

theorem processEvents_all_index (parse : JValue → ParseResult) (i : Nat)
    (events : List StreamEvent) :
    (processEvents parse i events).all (fun t => t.index == i) = true := by
  induction events with
  | nil => rfl
  | cons e rest ih =>
    cases hd : e.data with
    | none => simpa [processEvents, hd] using ih
    | some j =>
      cases hp : parse j with
      | ok resp => simp [processEvents, hd, hp, ih, createStreamToken_index]
      | skipResp => simpa [processEvents, hd, hp] using ih
      | eofSig => simp [processEvents, hd, hp]
      | otherErr => simpa [processEvents, hd, hp] using ih

/-- The two-frame Anthropic stream of spec §8 scenario 4: `text_delta`
"Hel" then `text_delta` "lo". -/
def c1events : List StreamEvent :=
  [ { type := "content_block_delta",
      data := some (.obj
        [("type", .str "content_block_delta"),
         ("delta", .obj [("type", .str "text_delta"), ("text", .str "Hel")])]) },
    { type := "content_block_delta",
      data := some (.obj
        [("type", .str "content_block_delta"),
         ("delta", .obj [("type", .str "text_delta"), ("text", .str "lo")])]) } ]

/-- C1: the claim requires yielded indices 0, 1, 2, …; in the source
`providerStream.currentIndex` is initialized to 0 and never incremented, so
every yielded token carries index 0.  On the concrete two-token Anthropic
stream the second token's index is 0, not 1, and in general every yielded
token of any stream carries the initial index. -/
theorem c1_stream_index_never_advances :
    (processEvents anthropicParseStreamResponse 0 c1events).map
        (fun t => (t.text, t.index)) = [("Hel", 0), ("lo", 0)]
      ∧ ∀ (parse : JValue → ParseResult) (i : Nat) (events : List StreamEvent),
          (processEvents parse i events).all (fun t => t.index == i) = true := by
  constructor
  · rfl
  · exact processEvents_all_index

/-! ## JSON rendering and the shared function-call formatter -/

/-- Minimal JSON string escaping (quote, backslash, newline); the Go
marshaller escapes a few more characters none of which occur below. -/
def escChar (c : Char) : String :=
  if c = '"' then "\\\""
  else if c = '\\' then "\\\\"
  else if c = '\n' then "\\n"
  else String.singleton c

/-- Render a JSON string literal. -/
def renderStr (s : String) : String :=
  "\"" ++ String.join (s.toList.map escChar) ++ "\""

mutual

/-- Compact JSON rendering of a value (Go `json.Marshal`). -/
def renderJ : JValue → String
  | .null => "null"
  | .bool true => "true"
  | .bool false => "false"
  | .num n => toString n
  | .str s => renderStr s
  | .arr xs => "[" ++ renderList xs ++ "]"
  | .obj fs => "\x7b" ++ renderFields fs ++ "\x7d"

/-- Comma-separated rendering of array elements. -/
def renderList : List JValue → String
  | [] => ""
  | [x] => renderJ x
  | x :: y :: rest => renderJ x ++ "," ++ renderList (y :: rest)

/-- Comma-separated rendering of object fields. -/
def renderFields : List (String × JValue) → String
  | [] => ""
  | [(k, v)] => renderStr k ++ ":" ++ renderJ v
  | (k, v) :: x :: rest => renderStr k ++ ":" ++ renderJ v ++ "," ++ renderFields (x :: rest)

end

/-- Modelled from the spec: `FormatFunctionCall` (§4.7) is defined outside
src/ (only its call sites are in src/).  It deterministically produces the
literal `{"function_call":{"name":name,"arguments":args}}`, preserving the
argument JSON. -/
def FormatFunctionCall (name : String) (args : JValue) : Except String String :=
  .ok ("\x7b\"function_call\":\x7b\"name\":" ++ renderStr name ++
    ",\"arguments\":" ++ renderJ args ++ "\x7d\x7d")

/-! ## Model resolution shared by every adapter -/

/-- The per-call model: `req.Model` if set, else a non-empty
`options["model"]` string, else the adapter's bound model. -/
def resolveModel (bound : String) (req : Request) (options : Options) : String :=
  if req.model ≠ "" then req.model
  else
    match optString options "model" with
    | some m => if m ≠ "" then m else bound
    | none => bound

/-! ## Anthropic adapter (src/providers/anthropic.go) -/

/-- `AnthropicProvider` state. -/
structure AnthropicProvider where
  apiKey : String := ""
  model : String := ""
  extraHeaders : List (String × String) := []
  options : Options := []

/-- `NewAnthropicProvider`: copies the caller's extra headers and defaults
the `anthropic-beta` extra header when absent.  (The capability
registrations it performs against the global registry are modelled as
explicit registry values elsewhere.) -/
def newAnthropicProvider (apiKey model : String)
    (extraHeaders : List (String × String)) : AnthropicProvider :=
  let eh := extraHeaders.foldl (fun acc kv => alInsert acc kv.1 kv.2) []
  let eh :=
    if (alLookup eh "anthropic-beta").isSome then eh
    else alInsert eh "anthropic-beta" "prompt-caching-2024-07-31"
  { apiKey := apiKey, model := model, extraHeaders := eh, options := [] }

/-- `AnthropicProvider.SetOption`. -/
def anthropicSetOption (p : AnthropicProvider) (key : String) (value : OptValue) :
    AnthropicProvider :=
  { p with options := alInsert p.options key value }

/-- `AnthropicProvider.SetExtraHeaders`: replaces the extras map. -/
def anthropicSetExtraHeaders (p : AnthropicProvider)
    (extraHeaders : List (String × String)) : AnthropicProvider :=
  { p with extraHeaders := extraHeaders }

/-- `AnthropicProvider.Headers`: the function builds a fresh fixed map and
returns it without merging `p.extraHeaders` (its own doc comment promises
the extras are included). -/
def anthropicHeaders (p : AnthropicProvider) : List (String × String) :=
  [("Content-Type", "application/json"),
   ("x-api-key", p.apiKey),
   ("anthropic-version", "2023-06-01"),
   ("anthropic-beta", "prompt-caching-2024-07-31")]

/-- `AnthropicProvider.HasCapability`. -/
def anthropicHasCapability (reg : RegistryV1) (p : AnthropicProvider)
    (cap : Capability) (model : String) : Bool :=
  hasCapabilityV1 reg "anthropic" (if model ≠ "" then model else p.model) cap

/-- Modelled from the spec: the constant `AnthropicSystemPromptMaxParts` is
declared outside src/ (anthropic.go only uses it); §8 fixes N = 4. -/
def AnthropicSystemPromptMaxParts : Nat := 4

/-- The distribution loop of `splitSystemPrompt`: part `i` takes
`paragraphsPerPart` paragraphs plus one while `i < extraParagraphs`;
counting the remaining parts down and decrementing `extra` is the same
schedule. -/
def buildParts (per : Nat) : Nat → Nat → List String → List String
  | 0, _, _ => []
  | k + 1, extra, ps =>
    let takeN := per + (if 0 < extra then 1 else 0)
    goJoin (ps.take takeN) "\n\n" :: buildParts per k (extra - 1) (ps.drop takeN)

/-- `splitSystemPrompt` from anthropic.go. -/
def splitSystemPrompt (prompt : String) (n : Nat) : List String :=
  if n ≤ 1 then [prompt]
  else
    let paragraphs := goSplit prompt "\n\n"
    if paragraphs.length ≤ n then paragraphs
    else buildParts (paragraphs.length / n) n (paragraphs.length % n) paragraphs

/-- `AnthropicProvider.addSystemPromptToRequestBody`: split parts become
`{type:"text", text}` entries appended to the body's `system` array, with
`cache_control:{type:"ephemeral"}` on every part after the first. -/
def anthropicAddSystemPrompt (body : List (String × JValue)) (systemPrompt : String) :
    List (String × JValue) :=
  if systemPrompt = "" then body
  else
    let parts := splitSystemPrompt systemPrompt AnthropicSystemPromptMaxParts
    let systemMessages := parts.enum.map (fun pair =>
      if pair.1 > 0 then
        JValue.obj [("type", .str "text"), ("text", .str pair.2),
          ("cache_control", .obj [("type", .str "ephemeral")])]
      else JValue.obj [("type", .str "text"), ("text", .str pair.2)])
    match alLookup body "system" with
    | some (.arr existing) => alInsert body "system" (.arr (existing ++ systemMessages))
    | _ => body

/-- `AnthropicProvider.extractSystemPromptFromRequest`. -/
def anthropicExtractSystemPrompt (req : Request) (options : Options) : String :=
  if req.systemPrompt ≠ "" then req.systemPrompt
  else
    match optString options "system_prompt" with
    | some sp => if sp ≠ "" then sp else ""
    | none => ""

/-- `AnthropicProvider.shouldEnableCaching`. -/
def anthropicShouldEnableCaching (options : Options) : Bool :=
  match alLookup options "enable_caching" with
  | some (.jval (.bool b)) => b
  | _ => false

/-- `AnthropicProvider.convertMessageToAnthropicFormat`. -/
def anthropicConvertMessage (msg : Message) (options : Options) : JValue :=
  let textBlock : List (String × JValue) :=
    [("type", .str "text"), ("text", .str msg.content)]
  let textBlock :=
    if msg.cacheType ≠ "" ∨ anthropicShouldEnableCaching options then
      let cacheType := if msg.cacheType = "" then "ephemeral" else msg.cacheType
      alInsert textBlock "cache_control" (.obj [("type", .str cacheType)])
    else textBlock
  let toolBlocks := msg.toolCalls.map (fun tc => JValue.obj
    [("type", .str "tool_use"), ("id", .str tc.id),
     ("name", .str tc.functionName), ("input", tc.functionArguments)])
  let base : List (String × JValue) :=
    [("role", .str msg.role), ("content", .arr (JValue.obj textBlock :: toolBlocks))]
  .obj (if msg.name ≠ "" then alInsert base "name" (.str msg.name) else base)

/-- `AnthropicProvider.addMessagesToRequestBody`. -/
def anthropicAddMessages (body : List (String × JValue)) (messages : List Message)
    (options : Options) : List (String × JValue) :=
  alInsert body "messages"
    (.arr (messages.map (fun m => anthropicConvertMessage m options)))

/-- `AnthropicProvider.processTools`: convert the tools, maybe prepend a
multi-tool usage instruction to the system prompt, and set `tool_choice`
(defaulting to auto). -/
def anthropicProcessTools (tools : List Tool) (body : List (String × JValue))
    (systemPrompt : String) (options : Options) : List (String × JValue) × String :=
  let anthropicTools := tools.map (fun t => JValue.obj
    [("name", .str t.functionName), ("description", .str t.functionDescription),
     ("input_schema", t.functionParameters)])
  let body := alInsert body "tools" (.arr anthropicTools)
  let systemPrompt :=
    if tools.length > 1 then
      let toolUsagePrompt := "When multiple tools are needed to answer a question, you should identify all required tools upfront and use them all at once in your response, rather than using them sequentially. Do not wait for tool results before calling other tools."
      if systemPrompt ≠ "" then toolUsagePrompt ++ "\n\n" ++ systemPrompt
      else toolUsagePrompt
    else systemPrompt
  let body :=
    match optString options "tool_choice" with
    | some tc => alInsert body "tool_choice" (.obj [("type", .str tc)])
    | none => alInsert body "tool_choice" (.obj [("type", .str "auto")])
  (body, systemPrompt)

/-- `AnthropicProvider.handleToolsForRequest`. -/
def anthropicHandleTools (body : List (String × JValue)) (systemPrompt : String)
    (options : Options) : List (String × JValue) × String :=
  match optTools options "tools" with
  | some ts => if ts.length = 0 then (body, systemPrompt)
               else anthropicProcessTools ts body systemPrompt options
  | none => (body, systemPrompt)

/-- `AnthropicProvider.addStructuredResponseToRequest`: appends a system
text block carrying the marshaled schema and a JSON-only directive.  (The
source pretty-prints the schema with MarshalIndent; the rendering here is
compact, a whitespace-only difference no claim observes.) -/
def anthropicAddStructuredResponse (body : List (String × JValue)) (schema : JValue) :
    List (String × JValue) :=
  let systemInstruction :=
    "You must respond with a JSON object that strictly adheres to this schema:\n"
      ++ renderJ schema
      ++ "\nDo not include any explanatory text, only output valid JSON."
  let block := JValue.obj [("type", .str "text"), ("text", .str systemInstruction)]
  match alLookup body "system" with
  | some (.arr existing) =>
    if existing.length > 0 then alInsert body "system" (.arr (existing ++ [block]))
    else alInsert body "system" (.arr [block])
  | _ => alInsert body "system" (.arr [block])

/-- `AnthropicProvider.isGlobalOption`. -/
def anthropicIsGlobalOption (key : String) : Bool :=
  key == "system_prompt" || key == "max_tokens" || key == "tools" ||
    key == "tool_choice" || key == "enable_caching"

/-- `AnthropicProvider.addRemainingOptions`. -/
def anthropicAddRemainingOptions (body : List (String × JValue)) (options : Options) :
    List (String × JValue) :=
  options.foldl
    (fun b kv => if anthropicIsGlobalOption kv.1 then b else alInsert b kv.1 kv.2.toJValue)
    body

/-- `AnthropicProvider.initializeRequestBodyWithModel`: `max_tokens` is read
from the provider options and is JSON null when unset. -/
def anthropicInitializeRequestBodyWithModel (p : AnthropicProvider) (model : String) :
    List (String × JValue) :=
  [("model", .str model),
   ("max_tokens",
     match alLookup p.options "max_tokens" with
     | some v => v.toJValue
     | none => JValue.null),
   ("system", .arr []),
   ("messages", .arr [])]

/-- The shared request-assembly pipeline of `PrepareRequest` and
`PrepareStreamRequest` (identical in the source up to the `stream` flag). -/
def anthropicRequestBody (reg : RegistryV1) (p : AnthropicProvider) (req : Request)
    (options : Options) (stream : Bool) : List (String × JValue) :=
  let model := resolveModel p.model req options
  let body := anthropicInitializeRequestBodyWithModel p model
  let body := if stream then alInsert body "stream" (.bool true) else body
  let systemPrompt := anthropicExtractSystemPrompt req options
  let handled := anthropicHandleTools body systemPrompt options
  let body := anthropicAddSystemPrompt handled.1 handled.2
  let body := anthropicAddMessages body req.messages options
  let body :=
    match req.responseSchema with
    | some schema =>
      if anthropicHasCapability reg p capStructuredResponse model then
        anthropicAddStructuredResponse body schema
      else body
    | none => body
  anthropicAddRemainingOptions body options

/-- `AnthropicProvider.PrepareRequest`. -/
def anthropicPrepareRequest (reg : RegistryV1) (p : AnthropicProvider) (req : Request)
    (options : Options) : Except String JValue :=
  .ok (.obj (anthropicRequestBody reg p req options false))

/-- `AnthropicProvider.PrepareStreamRequest`: fails fast when the resolved
model has no registered Streaming capability. -/
def anthropicPrepareStreamRequest (reg : RegistryV1) (p : AnthropicProvider)
    (req : Request) (options : Options) : Except String JValue :=
  let model := resolveModel p.model req options
  if anthropicHasCapability reg p capStreaming model then
    .ok (.obj (anthropicRequestBody reg p req options true))
  else .error "streaming is not supported by this provider"

/-! ### Anthropic response parsing -/

/-- A decoded `anthropicContent` block; `input` is the raw tool JSON,
`none` when absent. -/
structure AnthContentBlock where
  type : String := ""
  text : String := ""
  id : String := ""
  name : String := ""
  input : Option JValue := none

/-- Decode one content block (absent fields take their zero values). -/
def decodeAnthContent (j : JValue) : AnthContentBlock :=
  match j with
  | .obj fs =>
    { type := jGetStr fs "type", text := jGetStr fs "text", id := jGetStr fs "id",
      name := jGetStr fs "name", input := alLookup fs "input" }
  | _ => {}

/-- `transferPendingText`: move pending text into the final response,
newline-separated. -/
def anthTransferPending (finalResp pending : String) : String × String :=
  if pending ≠ "" then
    ((if finalResp ≠ "" then finalResp ++ "\n" else finalResp) ++ pending, "")
  else (finalResp, pending)

/-- `processFunctionCall`: a missing raw input fails JSON decoding in the
source; otherwise the shared formatter runs. -/
def anthProcessFunctionCall (b : AnthContentBlock) : Except String String :=
  match b.input with
  | none => .error "error parsing tool input"
  | some args => FormatFunctionCall b.name args

/-- The block loop of `processAnthropicContent`, carrying the builder
state (final response, collected calls, pending text, last block type). -/
def anthContentLoop : List AnthContentBlock → String → List String → String → String →
    Except String (String × List String × String)
  | [], finalResp, calls, pending, _ => .ok (finalResp, calls, pending)
  | b :: rest, finalResp, calls, pending, lastType =>
    if b.type = "text" then
      let pending :=
        (if lastType = "text" ∧ pending ≠ "" then pending ++ " " else pending) ++ b.text
      anthContentLoop rest finalResp calls pending b.type
    else if b.type = "tool_use" ∨ b.type = "tool_calls" then
      let moved := anthTransferPending finalResp pending
      match anthProcessFunctionCall b with
      | .error e => .error e
      | .ok fc => anthContentLoop rest moved.1 (calls ++ [fc]) moved.2 b.type
    else anthContentLoop rest finalResp calls pending b.type

/-- `processAnthropicContent`. -/
def processAnthropicContent (contents : List JValue) : Except String String :=
  match anthContentLoop (contents.map decodeAnthContent) "" [] "" "" with
  | .error e => .error e
  | .ok (finalResp, calls, pending) =>
    let moved := anthTransferPending finalResp pending
    if calls.length > 0 then
      .ok ((if moved.1 ≠ "" then moved.1 ++ "\n" else moved.1) ++ goJoin calls "\n")
    else .ok moved.1

/-- `AnthropicProvider.ParseResponse` on a decoded body: an empty content
array is the empty-response error. -/
def anthropicParseResponse (body : JValue) : Except String Response :=
  match body with
  | .obj fields =>
    let content := jGetArr fields "content"
    if content.length = 0 then .error "empty anthropicResponse from LLM"
    else
      match processAnthropicContent content with
      | .error e => .error e
      | .ok result =>
        .ok { content := some result,
              usage := some (anthropicUsageOf ((jGetObj fields "usage").getD [])) }
  | _ => .error "error parsing anthropicResponse"

/-! ## OpenAI adapter (src/providers/openai.go) -/

/-- `OpenAIProvider` state. -/
structure OpenAIProvider where
  apiKey : String := ""
  model : String := ""
  extraHeaders : List (String × String) := []
  options : Options := []

/-- `NewOpenAIProvider`. -/
def newOpenAIProvider (apiKey model : String)
    (extraHeaders : List (String × String)) : OpenAIProvider :=
  { apiKey := apiKey, model := model, extraHeaders := extraHeaders, options := [] }

/-- `OpenAIProvider.needsMaxCompletionTokens`: the bound model starts with
`o`, or contains `4o` or `-o`. -/
def needsMaxCompletionTokens (model : String) : Bool :=
  if ("o".toList).isPrefixOf model.toList then true
  else if goContains model "4o" || goContains model "-o" then true
  else false

/-- `OpenAIProvider.SetOption`: `max_tokens` is rewritten to
`max_completion_tokens` for reasoning-tier models, and the conflicting key
is deleted in either direction. -/
def openaiSetOption (p : OpenAIProvider) (key : String) (value : OptValue) :
    OpenAIProvider :=
  let resolved :=
    if key = "max_tokens" then
      if needsMaxCompletionTokens p.model then
        ("max_completion_tokens", alErase p.options "max_tokens")
      else
        ("max_tokens", alErase p.options "max_completion_tokens")
    else if key = "max_completion_tokens" then
      ("max_completion_tokens", alErase p.options "max_tokens")
    else (key, p.options)
  { p with options := alInsert resolved.2 resolved.1 value }

/-- `OpenAIProvider.SetExtraHeaders`. -/
def openaiSetExtraHeaders (p : OpenAIProvider)
    (extraHeaders : List (String × String)) : OpenAIProvider :=
  { p with extraHeaders := extraHeaders }

/-- `OpenAIProvider.Headers`: fixed auth headers merged with the extras. -/
def openaiHeaders (p : OpenAIProvider) : List (String × String) :=
  let headers := [("Content-Type", "application/json"),
                  ("Authorization", "Bearer " ++ p.apiKey)]
  p.extraHeaders.foldl (fun acc kv => alInsert acc kv.1 kv.2) headers

/-- `OpenAIProvider.HasCapability` (part_002 registry, provider "openai"). -/
def openaiHasCapability (reg : RegistryV2) (p : OpenAIProvider)
    (cap : CapTypeV2) (model : String) : Bool :=
  hasCapabilityV2 reg "openai" (if model ≠ "" then model else p.model) cap

/-- `OpenAIProvider.initializeOpenAIRequestWithModel`. -/
def openaiInitializeRequestWithModel (model : String) : List (String × JValue) :=
  [("model", .str model), ("messages", .arr [])]

/-- `OpenAIProvider.extractSystemPromptFromRequest`. -/
def openaiExtractSystemPrompt (req : Request) (options : Options) : String :=
  if req.systemPrompt ≠ "" then req.systemPrompt
  else
    match optString options "system_prompt" with
    | some sp => if sp ≠ "" then sp else ""
    | none => ""

/-- `OpenAIProvider.addSystemPromptToRequestBody`: prepend a synthetic
system message to the messages array. -/
def openaiAddSystemPrompt (body : List (String × JValue)) (systemPrompt : String) :
    List (String × JValue) :=
  if systemPrompt = "" then body
  else
    match alLookup body "messages" with
    | some (.arr messages) =>
      alInsert body "messages"
        (.arr (JValue.obj [("role", .str "system"), ("content", .str systemPrompt)]
          :: messages))
    | _ => body

/-- `OpenAIProvider.convertMessageToOpenAIFormat`. -/
def openaiConvertMessage (msg : Message) : JValue :=
  let base : List (String × JValue) :=
    [("role", .str msg.role), ("content", .str msg.content)]
  let base := if msg.name ≠ "" then alInsert base "name" (.str msg.name) else base
  let base :=
    if msg.toolCallID ≠ "" then alInsert base "tool_call_id" (.str msg.toolCallID)
    else base
  let base :=
    if msg.toolCalls.length > 0 then
      alInsert base "tool_calls" (.arr (msg.toolCalls.map (fun tc => JValue.obj
        [("id", .str tc.id), ("type", .str tc.type),
         ("function", .obj
           [("name", .str tc.functionName),
            ("arguments", .str (renderJ tc.functionArguments))])])))
    else base
  .obj base

/-- `OpenAIProvider.addMessagesToRequestBody`: appends converted messages
to the existing array, returning early on an empty message list. -/
def openaiAddMessages (body : List (String × JValue)) (messages : List Message) :
    List (String × JValue) :=
  if messages.length = 0 then body
  else
    let converted := messages.map openaiConvertMessage
    match alLookup body "messages" with
    | some (.arr existing) => alInsert body "messages" (.arr (existing ++ converted))
    | _ => alInsert body "messages" (.arr converted)

/-- `OpenAIProvider.handleToolsForRequest`. -/
def openaiHandleTools (body : List (String × JValue)) (options : Options) :
    List (String × JValue) :=
  match optTools options "tools" with
  | some ts =>
    if ts.length = 0 then body
    else
      let body := alInsert body "tools" (.arr (ts.map (fun t => JValue.obj
        [("type", .str "function"),
         ("function", .obj
           [("name", .str t.functionName),
            ("description", .str t.functionDescription),
            ("parameters", t.functionParameters)]),
         ("strict", .bool true)])))
      match optString options "tool_choice" with
      | some tc => alInsert body "tool_choice" (.str tc)
      | none => body
  | none => body

/-- `OpenAIProvider.addStructuredResponseToRequest`. -/
def openaiAddStructuredResponse (body : List (String × JValue)) (schema : JValue) :
    List (String × JValue) :=
  alInsert body "response_format" (.obj
    [("type", .str "json_schema"),
     ("json_schema", .obj
       [("name", .str "response"), ("schema", schema), ("strict", .bool true)])])

/-- `OpenAIProvider.isGlobalOption`. -/
def openaiIsGlobalOption (key : String) : Bool :=
  key == "system_prompt" || key == "tools" || key == "tool_choice" ||
    key == "structured_messages" || key == "stream"

/-- `OpenAIProvider.handleTokenParameters`: move whichever token key the
bound model does not accept onto the accepted one. -/
def openaiHandleTokenParameters (model : String) (merged : Options) : Options :=
  if needsMaxCompletionTokens model then
    match alLookup merged "max_tokens" with
    | some v => alErase (alInsert merged "max_completion_tokens" v) "max_tokens"
    | none => merged
  else
    match alLookup merged "max_completion_tokens" with
    | some v => alErase (alInsert merged "max_tokens" v) "max_completion_tokens"
    | none => merged

/-- `OpenAIProvider.addRemainingOptions`: merge provider options then call
options (excluding globals), fix the token keys, and write the result into
the body. -/
def openaiAddRemainingOptions (p : OpenAIProvider) (body : List (String × JValue))
    (options : Options) : List (String × JValue) :=
  let merged := p.options.foldl
    (fun acc kv => if openaiIsGlobalOption kv.1 then acc else alInsert acc kv.1 kv.2)
    ([] : Options)
  let merged := options.foldl
    (fun acc kv => if openaiIsGlobalOption kv.1 then acc else alInsert acc kv.1 kv.2)
    merged
  let merged := openaiHandleTokenParameters p.model merged
  merged.foldl (fun b kv => alInsert b kv.1 kv.2.toJValue) body

/-- The request-assembly pipeline shared by the OpenAI `PrepareRequest`
and `PrepareStreamRequest` (the latter also sets the stream flags). -/
def openaiRequestBody (reg : RegistryV2) (p : OpenAIProvider) (req : Request)
    (options : Options) (stream : Bool) : List (String × JValue) :=
  let model := resolveModel p.model req options
  let body := openaiInitializeRequestWithModel model
  let body :=
    if stream then
      alInsert (alInsert body "stream" (.bool true)) "stream_options"
        (.obj [("include_usage", .bool true)])
    else body
  let body := openaiAddSystemPrompt body (openaiExtractSystemPrompt req options)
  let body := openaiAddMessages body req.messages
  let body := openaiHandleTools body options
  let body :=
    match req.responseSchema with
    | some schema =>
      if openaiHasCapability reg p .structuredResponse model then
        openaiAddStructuredResponse body schema
      else body
    | none => body
  openaiAddRemainingOptions p body options

/-- `OpenAIProvider.PrepareRequest`. -/
def openaiPrepareRequest (reg : RegistryV2) (p : OpenAIProvider) (req : Request)
    (options : Options) : Except String JValue :=
  .ok (.obj (openaiRequestBody reg p req options false))

/-- `OpenAIProvider.PrepareStreamRequest`: fails fast without a registered
Streaming capability for the resolved model. -/
def openaiPrepareStreamRequest (reg : RegistryV2) (p : OpenAIProvider) (req : Request)
    (options : Options) : Except String JValue :=
  let model := resolveModel p.model req options
  if openaiHasCapability reg p .streaming model then
    .ok (.obj (openaiRequestBody reg p req options true))
  else .error "streaming is not supported by this provider"

/-- The tool-call formatting loop of `OpenAIProvider.ParseResponse`. -/
def openaiFormatToolCalls (calls : List JValue) : Except String (List String) :=
  match calls with
  | [] => .ok []
  | c :: rest =>
    let fn :=
      match c with
      | .obj cf => jGetObj cf "function"
      | _ => none
    match fn with
    | none => .error "error parsing function arguments"
    | some ff =>
      let args := alLookup ff "arguments"
      match args with
      | none => .error "error parsing function arguments"
      | some a =>
        match FormatFunctionCall (jGetStr ff "name") a with
        | .error e => .error e
        | .ok s =>
          match openaiFormatToolCalls rest with
          | .error e => .error e
          | .ok ss => .ok (s :: ss)

/-- `OpenAIProvider.ParseResponse` on a decoded body: no choices is the
empty-response error; a content-bearing first choice yields text, else
tool calls are formatted, else the no-content error. -/
def openaiParseResponse (body : JValue) : Except String Response :=
  match body with
  | .obj fields =>
    let choices := jGetArr fields "choices"
    if choices.length = 0 then .error "empty response from API"
    else
      let usage : Usage :=
        match jGetObj fields "usage" with
        | some uf =>
          match jGetObj uf "prompt_tokens_details" with
          | some pd =>
            NewUsage (jGetInt uf "prompt_tokens") (jGetInt pd "cache_tokens")
              (jGetInt uf "completion_tokens") 0 0
          | none => {}
        | none => {}
      let message :=
        match choices.head? with
        | some (.obj cf) => jGetObj cf "message"
        | _ => none
      match message with
      | some mf =>
        let content := jGetStr mf "content"
        if content ≠ "" then
          .ok { content := some content, usage := some usage }
        else
          let toolCalls := jGetArr mf "tool_calls"
          if toolCalls.length > 0 then
            match openaiFormatToolCalls toolCalls with
            | .error e => .error e
            | .ok calls => .ok { content := some (goJoin calls "\n"), usage := some usage }
          else .error "no content or tool calls in response"
      | none => .error "no content or tool calls in response"
  | _ => .error "failed to unmarshal response"

/-- C4: Anthropic `Headers()` omits a pair previously passed to
`SetExtraHeaders` even though the extras map stores it (and the function's
own doc comment promises extras are included); the OpenAI adapter, in
contrast, merges its extras into the returned headers. -/
theorem c4_anthropic_headers_drop_extras :
    alLookup
        (anthropicHeaders
          (anthropicSetExtraHeaders (newAnthropicProvider "key" "claude-3-opus-20240229" [])
            [("X-Test", "1")]))
        "X-Test" = none
      ∧ (anthropicSetExtraHeaders (newAnthropicProvider "key" "claude-3-opus-20240229" [])
          [("X-Test", "1")]).extraHeaders = [("X-Test", "1")]
      ∧ alLookup
          (openaiHeaders
            (openaiSetExtraHeaders (newOpenAIProvider "key" "gpt-4" []) [("X-Test", "1")]))
          "X-Test" = some "1" := by
  exact ⟨rfl, rfl, rfl⟩

/-- The six-paragraph system prompt of spec §8. -/
def c8prompt : String := "p1\n\np2\n\np3\n\np4\n\np5\n\np6"

/-- C8: splitting six double-newline-separated paragraphs into at most four
parts yields four parts of 2, 2, 1 and 1 paragraphs, and in the request
body every system segment after the first — and only those — carries
`cache_control:{type:"ephemeral"}`. -/
theorem c8_split_system_prompt :
    splitSystemPrompt c8prompt 4 = ["p1\n\np2", "p3\n\np4", "p5", "p6"]
      ∧ (splitSystemPrompt c8prompt AnthropicSystemPromptMaxParts).map
          (fun s => (goSplit s "\n\n").length) = [2, 2, 1, 1]
      ∧ alLookup
          (anthropicAddSystemPrompt
            (anthropicInitializeRequestBodyWithModel
              (newAnthropicProvider "k" "claude-3-opus" []) "claude-3-opus")
            c8prompt)
          "system"
        = some (.arr
            [ .obj [("type", .str "text"), ("text", .str "p1\n\np2")],
              .obj [("type", .str "text"), ("text", .str "p3\n\np4"),
                ("cache_control", .obj [("type", .str "ephemeral")])],
              .obj [("type", .str "text"), ("text", .str "p5"),
                ("cache_control", .obj [("type", .str "ephemeral")])],
              .obj [("type", .str "text"), ("text", .str "p6"),
                ("cache_control", .obj [("type", .str "ephemeral")])] ]) := by
  exact ⟨rfl, rfl, rfl⟩

/-- C9: with `max_tokens` set via `SetOption`, the prepared body of an
OpenAI provider bound to a reasoning-tier model (per
`needsMaxCompletionTokens`) carries the value under
`max_completion_tokens` and has no `max_tokens` key; a non-reasoning model
gets `max_tokens` and no `max_completion_tokens`. -/
theorem c9_openai_token_param_rewrite (model : String) (v : JValue) :
    (needsMaxCompletionTokens model = true →
      alLookup
          (openaiRequestBody []
            (openaiSetOption (newOpenAIProvider "k" model []) "max_tokens" (.jval v))
            {} [] false)
          "max_completion_tokens" = some v
        ∧ alLookup
            (openaiRequestBody []
              (openaiSetOption (newOpenAIProvider "k" model []) "max_tokens" (.jval v))
              {} [] false)
            "max_tokens" = none)
      ∧ (needsMaxCompletionTokens model = false →
        alLookup
            (openaiRequestBody []
              (openaiSetOption (newOpenAIProvider "k" model []) "max_tokens" (.jval v))
              {} [] false)
            "max_tokens" = some v
          ∧ alLookup
              (openaiRequestBody []
                (openaiSetOption (newOpenAIProvider "k" model []) "max_tokens" (.jval v))
                {} [] false)
              "max_completion_tokens" = none) := by
  constructor
  · intro h
    constructor
    · simp [openaiRequestBody, openaiSetOption, newOpenAIProvider, resolveModel,
        optString, optTools, alLookup, alInsert, alErase, OptValue.toJValue,
        openaiInitializeRequestWithModel, openaiExtractSystemPrompt,
        openaiAddSystemPrompt, openaiAddMessages, openaiHandleTools,
        openaiAddRemainingOptions, openaiIsGlobalOption,
        openaiHandleTokenParameters, h]
    · simp [openaiRequestBody, openaiSetOption, newOpenAIProvider, resolveModel,
        optString, optTools, alLookup, alInsert, alErase, OptValue.toJValue,
        openaiInitializeRequestWithModel, openaiExtractSystemPrompt,
        openaiAddSystemPrompt, openaiAddMessages, openaiHandleTools,
        openaiAddRemainingOptions, openaiIsGlobalOption,
        openaiHandleTokenParameters, h]
  · intro h
    constructor
    · simp [openaiRequestBody, openaiSetOption, newOpenAIProvider, resolveModel,
        optString, optTools, alLookup, alInsert, alErase, OptValue.toJValue,
        openaiInitializeRequestWithModel, openaiExtractSystemPrompt,
        openaiAddSystemPrompt, openaiAddMessages, openaiHandleTools,
        openaiAddRemainingOptions, openaiIsGlobalOption,
        openaiHandleTokenParameters, h]
    · simp [openaiRequestBody, openaiSetOption, newOpenAIProvider, resolveModel,
        optString, optTools, alLookup, alInsert, alErase, OptValue.toJValue,
        openaiInitializeRequestWithModel, openaiExtractSystemPrompt,
        openaiAddSystemPrompt, openaiAddMessages, openaiHandleTools,
        openaiAddRemainingOptions, openaiIsGlobalOption,
        openaiHandleTokenParameters, h]

/-- C9 witness: the reasoning case at `o1-preview` and the plain case at
`gpt-4`, with `max_tokens` set to 100. -/
theorem c9_openai_token_param_rewrite_witness :
    (alLookup
        (openaiRequestBody []
          (openaiSetOption (newOpenAIProvider "k" "o1-preview" []) "max_tokens"
            (.jval (.num 100)))
          {} [] false)
        "max_completion_tokens" = some (.num 100)
      ∧ alLookup
          (openaiRequestBody []
            (openaiSetOption (newOpenAIProvider "k" "o1-preview" []) "max_tokens"
              (.jval (.num 100)))
            {} [] false)
          "max_tokens" = none)
    ∧ (alLookup
        (openaiRequestBody []
          (openaiSetOption (newOpenAIProvider "k" "gpt-4" []) "max_tokens"
            (.jval (.num 100)))
          {} [] false)
        "max_tokens" = some (.num 100)
      ∧ alLookup
          (openaiRequestBody []
            (openaiSetOption (newOpenAIProvider "k" "gpt-4" []) "max_tokens"
              (.jval (.num 100)))
            {} [] false)
          "max_completion_tokens" = none) :=
  ⟨(c9_openai_token_param_rewrite "o1-preview" (.num 100)).1 rfl,
   (c9_openai_token_param_rewrite "gpt-4" (.num 100)).2 rfl⟩

/-! ## Gemini adapter (src/unnamed/part_005, second file) -/

/-- `GeminiProvider` state. -/
structure GeminiProvider where
  apiKey : String := ""
  model : String := ""
  extraHeaders : List (String × String) := []
  options : Options := []
  streamMode : Bool := false

/-- `NewGeminiProvider`. -/
def newGeminiProvider (apiKey model : String)
    (extraHeaders : List (String × String)) : GeminiProvider :=
  { apiKey := apiKey, model := model,
    extraHeaders := extraHeaders.foldl (fun acc kv => alInsert acc kv.1 kv.2) [],
    options := [] }

/-- `GeminiProvider.HasCapability` (part_002 registry, provider "gemini"). -/
def geminiHasCapability (reg : RegistryV2) (p : GeminiProvider)
    (cap : CapTypeV2) (model : String) : Bool :=
  hasCapabilityV2 reg "gemini" (if model ≠ "" then model else p.model) cap

/-- `GeminiProvider.extractSystemPromptFromRequest` (this adapter takes any
asserted string, with no non-empty check on the option). -/
def geminiExtractSystemPrompt (req : Request) (options : Options) : String :=
  if req.systemPrompt ≠ "" then req.systemPrompt
  else
    match optString options "system_prompt" with
    | some sp => sp
    | none => ""

/-- `GeminiProvider.addSystemPromptToRequestBody`. -/
def geminiAddSystemPrompt (body : List (String × JValue)) (systemPrompt : String) :
    List (String × JValue) :=
  if systemPrompt = "" then body
  else
    alInsert body "systemInstruction"
      (.obj [("parts", .arr [.obj [("text", .str systemPrompt)]])])

/-- `GeminiProvider.handleToolsForRequest`. -/
def geminiHandleTools (body : List (String × JValue)) (options : Options) :
    List (String × JValue) :=
  match optTools options "tools" with
  | some ts =>
    if ts.length = 0 then body
    else
      let funcDecls := ts.map (fun t => JValue.obj
        [("name", .str t.functionName),
         ("description", .str t.functionDescription),
         ("parameters", t.functionParameters)])
      let body := alInsert body "tools"
        (.arr [.obj [("functionDeclarations", .arr funcDecls)]])
      match optString options "function_call_mode" with
      | some mode =>
        if mode ≠ "" then
          alInsert body "toolConfig"
            (.obj [("functionCallingConfig", .obj [("mode", .str mode)])])
        else body
      | none => body
  | none => body

/-- `GeminiProvider.addStructuredResponseToRequest`: the schema is placed
verbatim under `generationConfig.responseSchema` — the marshal-and-strip
step is commented out in the source and `stripMetaDeep` is never called. -/
def geminiAddStructuredResponse (body : List (String × JValue)) (schema : JValue) :
    List (String × JValue) :=
  match alLookup body "generationConfig" with
  | some (.obj gc) =>
    alInsert body "generationConfig"
      (.obj (alInsert (alInsert gc "responseMimeType" (.str "application/json"))
        "responseSchema" schema))
  | _ =>
    alInsert body "generationConfig"
      (.obj [("responseMimeType", .str "application/json"), ("responseSchema", schema)])

/-- `GeminiProvider.mapRoleToGemini`. -/
def geminiMapRole (role : String) : String :=
  if role = "user" then "user"
  else if role = "assistant" then "model"
  else if role = "tool" then "function"
  else ""

/-- `GeminiProvider.convertMessageToGeminiFormat`: unknown roles drop the
message. -/
def geminiConvertMessage (msg : Message) : Option JValue :=
  let role := geminiMapRole msg.role
  if role = "" then none
  else
    let parts :=
      (if msg.content ≠ "" then [JValue.obj [("text", .str msg.content)]] else [])
        ++ msg.toolCalls.map (fun tc => JValue.obj
          [("functionCall", .obj
            [("name", .str tc.functionName), ("args", tc.functionArguments)])])
    some (.obj [("role", .str role), ("parts", .arr parts)])

/-- `GeminiProvider.addMessagesToRequestBody`. -/
def geminiAddMessages (body : List (String × JValue)) (messages : List Message) :
    List (String × JValue) :=
  alInsert body "contents" (.arr (messages.filterMap geminiConvertMessage))

/-- `GeminiProvider.buildGenerationConfig` from the provider options. -/
def geminiBuildGenerationConfig (p : GeminiProvider) : List (String × JValue) :=
  let g : List (String × JValue) := []
  let g := match alLookup p.options "temperature" with
    | some v => alInsert g "temperature" v.toJValue
    | none => g
  let g := match alLookup p.options "max_tokens" with
    | some v => alInsert g "maxOutputTokens" v.toJValue
    | none => g
  let g := match alLookup p.options "top_p" with
    | some v => alInsert g "topP" v.toJValue
    | none => g
  let g := match alLookup p.options "top_k" with
    | some v => alInsert g "topK" v.toJValue
    | none => g
  match alLookup p.options "stop_sequences" with
  | some v => alInsert g "stopSequences" v.toJValue
  | none => g

/-- `GeminiProvider.isGlobalOption`. -/
def geminiIsGlobalOption (key : String) : Bool :=
  key == "system_prompt" || key == "tools" || key == "tool_choice" ||
    key == "structured_messages" || key == "stream" || key == "function_call_mode" ||
    key == "temperature" || key == "top_p" || key == "top_k" ||
    key == "stop_sequences" || key == "max_tokens"

/-- `GeminiProvider.addRemainingOptions`. -/
def geminiAddRemainingOptions (p : GeminiProvider) (body : List (String × JValue))
    (options : Options) : List (String × JValue) :=
  let genConfig := geminiBuildGenerationConfig p
  let body :=
    if genConfig.length > 0 then
      match alLookup body "generationConfig" with
      | some (.obj existing) =>
        alInsert body "generationConfig"
          (.obj (genConfig.foldl (fun e kv => alInsert e kv.1 kv.2) existing))
      | _ => alInsert body "generationConfig" (.obj genConfig)
    else body
  options.foldl
    (fun b kv => if geminiIsGlobalOption kv.1 then b else alInsert b kv.1 kv.2.toJValue)
    body

/-- The Gemini `PrepareRequest` pipeline (the resolved model only feeds the
endpoint; the body carries no model key). -/
def geminiRequestBody (p : GeminiProvider) (req : Request) (options : Options) :
    List (String × JValue) :=
  let body : List (String × JValue) := [("contents", .arr [])]
  let body := geminiAddSystemPrompt body (geminiExtractSystemPrompt req options)
  let body := geminiHandleTools body options
  let body :=
    match req.responseSchema with
    | some schema => geminiAddStructuredResponse body schema
    | none => body
  let body := geminiAddMessages body req.messages
  geminiAddRemainingOptions p body options

/-- `GeminiProvider.PrepareRequest`. -/
def geminiPrepareRequest (p : GeminiProvider) (req : Request) (options : Options) :
    Except String JValue :=
  .ok (.obj (geminiRequestBody p req options))

/-- `GeminiProvider.PrepareStreamRequest`: checks the Streaming capability,
sets stream mode and delegates to `PrepareRequest`. -/
def geminiPrepareStreamRequest (reg : RegistryV2) (p : GeminiProvider) (req : Request)
    (options : Options) : Except String JValue :=
  let model := resolveModel p.model req options
  if geminiHasCapability reg p .streaming model then
    .ok (.obj (geminiRequestBody { p with streamMode := true } req options))
  else .error "streaming is not supported by this provider"

/-- `GeminiProvider.formatFunctionCall`: string arguments pass through,
other values are marshaled, a nil `args` marshals to `null`. -/
def geminiFormatFunctionCall (fc : List (String × JValue)) : String :=
  let name := jGetStr fc "name"
  let argsJSON :=
    match alLookup fc "args" with
    | some (.str s) => s
    | some other => renderJ other
    | none => "null"
  "\x7b\"function_call\": \x7b\"name\": " ++ renderStr name ++ ", \"arguments\": "
    ++ argsJSON ++ "\x7d\x7d"

/-- `GeminiProvider.ParseResponse` on a decoded body. -/
def geminiParseResponse (body : JValue) : Except String Response :=
  match body with
  | .obj fields =>
    let candidates := jGetArr fields "candidates"
    match candidates.head? with
    | none => .error "no candidates in response"
    | some c =>
      let contentParts :=
        match c with
        | .obj cf =>
          match jGetObj cf "content" with
          | some ct => jGetArr ct "parts"
          | none => []
        | _ => []
      if contentParts.length = 0 then .error "no content parts in response"
      else
        let text := contentParts.foldl (fun acc part =>
          match part with
          | .obj pf =>
            let acc := acc ++ jGetStr pf "text"
            match jGetObj pf "functionCall" with
            | some fc => acc ++ geminiFormatFunctionCall fc
            | none => acc
          | _ => acc) ""
        let usage :=
          match jGetObj fields "usageMetadata" with
          | some um => some (NewUsage (jGetInt um "promptTokenCount")
              (jGetInt um "cachedContentTokenCount") (jGetInt um "candidatesTokenCount") 0 0)
          | none => none
        .ok { role := "assistant", content := some text, usage := usage }
  | _ => .error "failed to unmarshal response"

/-! ## Mistral adapter (src/unnamed/part_003) -/

/-- `MistralProvider` state. -/
structure MistralProvider where
  apiKey : String := ""
  model : String := ""
  extraHeaders : List (String × String) := []
  options : Options := []

/-- `NewMistralProvider`. -/
def newMistralProvider (apiKey model : String)
    (extraHeaders : List (String × String)) : MistralProvider :=
  { apiKey := apiKey, model := model, extraHeaders := extraHeaders, options := [] }

/-- `MistralProvider.HasCapability` (part_002 registry, provider
"mistral"). -/
def mistralHasCapability (reg : RegistryV2) (p : MistralProvider)
    (cap : CapTypeV2) (model : String) : Bool :=
  hasCapabilityV2 reg "mistral" (if model ≠ "" then model else p.model) cap

/-- `MistralProvider.initializeRequestBodyWithModel`. -/
def mistralInitializeRequestBodyWithModel (p : MistralProvider) (model : String) :
    List (String × JValue) :=
  [("model", .str model),
   ("max_tokens",
     match alLookup p.options "max_tokens" with
     | some v => v.toJValue
     | none => JValue.null),
   ("messages", .arr [])]

/-- `MistralProvider.extractSystemPromptFromRequest`. -/
def mistralExtractSystemPrompt (req : Request) (options : Options) : String :=
  if req.systemPrompt ≠ "" then req.systemPrompt
  else
    match optString options "system_prompt" with
    | some sp => if sp ≠ "" then sp else ""
    | none => ""

/-- `MistralProvider.addSystemPromptToRequestBody`: appends the synthetic
system message after the existing messages. -/
def mistralAddSystemPrompt (body : List (String × JValue)) (systemPrompt : String) :
    List (String × JValue) :=
  if systemPrompt = "" then body
  else
    match alLookup body "messages" with
    | some (.arr messages) =>
      alInsert body "messages"
        (.arr (messages ++
          [JValue.obj [("role", .str "system"), ("content", .str systemPrompt)]]))
    | _ => body

/-- Wire form of a canonical `ToolCall` when marshaled as-is. -/
def toolCallToJValue (tc : ToolCall) : JValue :=
  .obj [("id", .str tc.id), ("type", .str tc.type),
    ("function", .obj
      [("name", .str tc.functionName), ("arguments", tc.functionArguments)])]

/-- `MistralProvider.addMessagesToRequestBody`. -/
def mistralAddMessages (body : List (String × JValue)) (messages : List Message) :
    List (String × JValue) :=
  match alLookup body "messages" with
  | some (.arr existing) =>
    alInsert body "messages" (.arr (existing ++ messages.map (fun msg =>
      let base : List (String × JValue) :=
        [("role", .str msg.role), ("content", .str msg.content)]
      let base := if msg.name ≠ "" then alInsert base "name" (.str msg.name) else base
      let base :=
        if msg.toolCalls.length > 0 then
          alInsert base "tool_calls" (.arr (msg.toolCalls.map toolCallToJValue))
        else base
      let base :=
        if msg.toolCallID ≠ "" then alInsert base "tool_call_id" (.str msg.toolCallID)
        else base
      JValue.obj base)))
  | _ => body

/-- `MistralProvider.addStructuredResponseToRequest`. -/
def mistralAddStructuredResponse (body : List (String × JValue)) (schema : JValue) :
    List (String × JValue) :=
  alInsert body "response_format"
    (.obj [("type", .str "json_schema"), ("schema", schema)])

/-- `MistralProvider.addRemainingOptions`: provider options except
`max_tokens`, then the call options except `system_prompt`. -/
def mistralAddRemainingOptions (p : MistralProvider) (body : List (String × JValue))
    (options : Options) : List (String × JValue) :=
  let body := p.options.foldl
    (fun b kv => if kv.1 == "max_tokens" then b else alInsert b kv.1 kv.2.toJValue)
    body
  options.foldl
    (fun b kv => if kv.1 == "system_prompt" then b else alInsert b kv.1 kv.2.toJValue)
    body

/-- The shared Mistral request pipeline; `PrepareStreamRequest` only adds
the stream flag and performs no streaming-capability check. -/
def mistralRequestBody (reg : RegistryV2) (p : MistralProvider) (req : Request)
    (options : Options) (stream : Bool) : List (String × JValue) :=
  let model := resolveModel p.model req options
  let body := mistralInitializeRequestBodyWithModel p model
  let body := if stream then alInsert body "stream" (.bool true) else body
  let body := mistralAddSystemPrompt body (mistralExtractSystemPrompt req options)
  let body := mistralAddMessages body req.messages
  let body :=
    match req.responseSchema with
    | some schema =>
      if mistralHasCapability reg p .structuredResponse model then
        mistralAddStructuredResponse body schema
      else body
    | none => body
  mistralAddRemainingOptions p body options

/-- `MistralProvider.PrepareRequest`. -/
def mistralPrepareRequest (reg : RegistryV2) (p : MistralProvider) (req : Request)
    (options : Options) : Except String JValue :=
  .ok (.obj (mistralRequestBody reg p req options false))

/-- `MistralProvider.PrepareStreamRequest`: builds the streaming body
unconditionally — there is no Streaming-capability check in the source. -/
def mistralPrepareStreamRequest (reg : RegistryV2) (p : MistralProvider) (req : Request)
    (options : Options) : Except String JValue :=
  .ok (.obj (mistralRequestBody reg p req options true))

/-- The tool-call formatting loop of `MistralProvider.ParseResponse`
(same raw-JSON argument handling as the OpenAI one). -/
def mistralFormatToolCalls (calls : List JValue) : Except String (List String) :=
  match calls with
  | [] => .ok []
  | c :: rest =>
    let fn :=
      match c with
      | .obj cf => jGetObj cf "function"
      | _ => none
    match fn with
    | none => .error "error parsing function arguments"
    | some ff =>
      match alLookup ff "arguments" with
      | none => .error "error parsing function arguments"
      | some a =>
        match FormatFunctionCall (jGetStr ff "name") a with
        | .error e => .error e
        | .ok s =>
          match mistralFormatToolCalls rest with
          | .error e => .error e
          | .ok ss => .ok (s :: ss)

/-- `MistralProvider.ParseResponse` on a decoded body: no choices or empty
content is the empty-response error; tool calls are appended
newline-separated after the content. -/
def mistralParseResponse (body : JValue) : Except String Response :=
  match body with
  | .obj fields =>
    let choices := jGetArr fields "choices"
    let msg :=
      match choices.head? with
      | some (.obj cf) => jGetObj cf "message"
      | _ => none
    let content := match msg with | some mf => jGetStr mf "content" | none => ""
    if choices.length = 0 ∨ content = "" then .error "empty response from API"
    else
      let toolCalls := match msg with | some mf => jGetArr mf "tool_calls" | none => []
      match mistralFormatToolCalls toolCalls with
      | .error e => .error e
      | .ok calls =>
        let text := calls.foldl (fun acc call =>
          (if acc ≠ "" then acc ++ "\n" else acc) ++ call) content
        .ok { content := some text }
  | _ => .error "error parsing response"

/-! ## Cohere adapter (src/unnamed/part_006, second file) -/

/-- `CohereProvider` state. -/
structure CohereProvider where
  apiKey : String := ""
  model : String := ""
  extraHeaders : List (String × String) := []
  options : Options := []

/-- `NewCohereProvider`. -/
def newCohereProvider (apiKey model : String)
    (extraHeaders : List (String × String)) : CohereProvider :=
  { apiKey := apiKey, model := model, extraHeaders := extraHeaders, options := [] }

/-- `CohereProvider.HasCapability` (part_002 registry, provider "cohere"). -/
def cohereHasCapability (reg : RegistryV2) (p : CohereProvider)
    (cap : CapTypeV2) (model : String) : Bool :=
  hasCapabilityV2 reg "cohere" (if model ≠ "" then model else p.model) cap

/-- `CohereProvider.Headers` (Content-type spelled with a lowercase t in
the source). -/
def cohereHeaders (p : CohereProvider) : List (String × String) :=
  let headers := [("Content-type", "application/json"),
                  ("Authorization", "Bearer " ++ p.apiKey)]
  p.extraHeaders.foldl (fun acc kv => alInsert acc kv.1 kv.2) headers

/-- `CohereProvider.initializeRequestBodyWithModel`. -/
def cohereInitializeRequestBodyWithModel (model : String) : List (String × JValue) :=
  [("model", .str model), ("messages", .arr [])]

/-- `CohereProvider.convertMessageToCohereFormat`. -/
def cohereConvertMessage (msg : Message) : JValue :=
  let base : List (String × JValue) :=
    [("role", .str msg.role), ("content", .str msg.content)]
  let base := if msg.name ≠ "" then alInsert base "name" (.str msg.name) else base
  let base :=
    if msg.toolCalls.length > 0 then
      alInsert base "tool_calls" (.arr (msg.toolCalls.map (fun tc => JValue.obj
        [("id", .str tc.id), ("type", .str tc.type),
         ("function", .obj
           [("name", .str tc.functionName),
            ("arguments", .str (renderJ tc.functionArguments))])])))
    else base
  .obj base

/-- `CohereProvider.addMessagesToRequestBody`. -/
def cohereAddMessages (body : List (String × JValue)) (messages : List Message) :
    List (String × JValue) :=
  alInsert body "messages" (.arr (messages.map cohereConvertMessage))

/-- `CohereProvider.addStructuredResponseToRequest`. -/
def cohereAddStructuredResponse (body : List (String × JValue)) (schema : JValue) :
    List (String × JValue) :=
  alInsert body "response_format"
    (.obj [("type", .str "json_object"), ("json_schema", schema)])

/-- `CohereProvider.isGlobalOption`. -/
def cohereIsGlobalOption (key : String) : Bool :=
  key == "system_prompt" || key == "preamble" || key == "messages" ||
    key == "response_format" || key == "stream"

/-- `CohereProvider.addRemainingOptions`. -/
def cohereAddRemainingOptions (p : CohereProvider) (body : List (String × JValue))
    (options : Options) : List (String × JValue) :=
  let body := p.options.foldl
    (fun b kv => if cohereIsGlobalOption kv.1 then b else alInsert b kv.1 kv.2.toJValue)
    body
  options.foldl
    (fun b kv => if cohereIsGlobalOption kv.1 then b else alInsert b kv.1 kv.2.toJValue)
    body

/-- The cohere preamble placement shared by both prepare paths. -/
def cohereAddPreamble (body : List (String × JValue)) (req : Request)
    (options : Options) : List (String × JValue) :=
  if req.systemPrompt ≠ "" then alInsert body "preamble" (.str req.systemPrompt)
  else
    match optString options "system_prompt" with
    | some sp => if sp ≠ "" then alInsert body "preamble" (.str sp) else body
    | none => body

/-- `CohereProvider.PrepareRequest` body. -/
def cohereRequestBody (reg : RegistryV2) (p : CohereProvider) (req : Request)
    (options : Options) (stream : Bool) : List (String × JValue) :=
  let model := resolveModel p.model req options
  let body := cohereInitializeRequestBodyWithModel model
  let body := if stream then alInsert body "stream" (.bool true) else body
  let body := cohereAddMessages body req.messages
  let body := cohereAddPreamble body req options
  let body :=
    match req.responseSchema with
    | some schema =>
      if cohereHasCapability reg p .structuredResponse model then
        cohereAddStructuredResponse body schema
      else body
    | none => body
  cohereAddRemainingOptions p body options

/-- `CohereProvider.PrepareRequest`. -/
def coherePrepareRequest (reg : RegistryV2) (p : CohereProvider) (req : Request)
    (options : Options) : Except String JValue :=
  .ok (.obj (cohereRequestBody reg p req options false))

/-- `CohereProvider.PrepareStreamRequest`: sets the stream flag and builds
the body — there is no Streaming-capability check in the source. -/
def coherePrepareStreamRequest (reg : RegistryV2) (p : CohereProvider) (req : Request)
    (options : Options) : Except String JValue :=
  .ok (.obj (cohereRequestBody reg p req options true))

/-- The tool-call loop of `CohereProvider.ParseResponse`.  On the wire the
arguments are a JSON string whose decoded value is represented directly
here (a missing value fails decoding in the source). -/
def cohereFormatToolCalls (calls : List JValue) : Except String (List String) :=
  match calls with
  | [] => .ok []
  | c :: rest =>
    let fn :=
      match c with
      | .obj cf => jGetObj cf "function"
      | _ => none
    match fn with
    | none => .error "error parsing function arguments"
    | some ff =>
      match alLookup ff "arguments" with
      | none => .error "error parsing function arguments"
      | some a =>
        match FormatFunctionCall (jGetStr ff "name") a with
        | .error e => .error e
        | .ok s =>
          match cohereFormatToolCalls rest with
          | .error e => .error e
          | .ok ss => .ok (s :: ss)

/-- `CohereProvider.ParseResponse` on a decoded body: an empty
`message.content` array is the empty-response error; text-type items are
concatenated and tool calls appended newline-separated. -/
def cohereParseResponse (body : JValue) : Except String Response :=
  match body with
  | .obj fields =>
    let msg := (jGetObj fields "message").getD []
    let content := jGetArr msg "content"
    if content.length = 0 then .error "empty response from API"
    else
      let text := content.foldl (fun acc item =>
        match item with
        | .obj itf => if jGetStr itf "type" = "text" then acc ++ jGetStr itf "text" else acc
        | _ => acc) ""
      match cohereFormatToolCalls (jGetArr msg "tool_calls") with
      | .error e => .error e
      | .ok calls =>
        let text := calls.foldl (fun acc call =>
          (if acc ≠ "" then acc ++ "\n" else acc) ++ call) text
        .ok { content := some text }
  | _ => .error "error parsing response"

/-! ## Groq adapter (src/providers/capability_types.go, second file) -/

/-- `GroqProvider` state. -/
structure GroqProvider where
  apiKey : String := ""
  model : String := ""
  extraHeaders : List (String × String) := []
  options : Options := []

/-- `NewGroqProvider`. -/
def newGroqProvider (apiKey model : String)
    (extraHeaders : List (String × String)) : GroqProvider :=
  { apiKey := apiKey, model := model, extraHeaders := extraHeaders, options := [] }

/-- `GroqProvider.HasCapability` (capability_registry.go registry,
provider "groq"). -/
def groqHasCapability (reg : RegistryV1) (p : GroqProvider)
    (cap : Capability) (model : String) : Bool :=
  hasCapabilityV1 reg "groq" (if model ≠ "" then model else p.model) cap

/-- `GroqProvider.initializeRequestBodyWithModel`. -/
def groqInitializeRequestBodyWithModel (model : String) : List (String × JValue) :=
  [("model", .str model)]

/-- `GroqProvider.addMessagesToRequestBody`. -/
def groqAddMessages (body : List (String × JValue)) (messages : List Message) :
    List (String × JValue) :=
  alInsert body "messages" (.arr (messages.map (fun msg =>
    let base : List (String × JValue) :=
      [("role", .str msg.role), ("content", .str msg.content)]
    let base := if msg.name ≠ "" then alInsert base "name" (.str msg.name) else base
    let base :=
      if msg.toolCallID ≠ "" then alInsert base "tool_call_id" (.str msg.toolCallID)
      else base
    let base :=
      if msg.toolCalls.length > 0 then
        alInsert base "tool_calls" (.arr (msg.toolCalls.map toolCallToJValue))
      else base
    JValue.obj base)))

/-- `GroqProvider.addSystemPromptToRequestBody`: prepend a system message. -/
def groqAddSystemPrompt (body : List (String × JValue)) (systemPrompt : String) :
    List (String × JValue) :=
  match alLookup body "messages" with
  | some (.arr messages) =>
    alInsert body "messages"
      (.arr (JValue.obj [("role", .str "system"), ("content", .str systemPrompt)]
        :: messages))
  | _ => body

/-- `GroqProvider.addStructuredResponseToRequest`. -/
def groqAddStructuredResponse (body : List (String × JValue)) (schema : JValue) :
    List (String × JValue) :=
  alInsert body "response_format"
    (.obj [("type", .str "json_schema"), ("schema", schema)])

/-- `GroqProvider.isGlobalOption`. -/
def groqIsGlobalOption (key : String) : Bool :=
  key == "messages" || key == "system_prompt" || key == "structured_messages" ||
    key == "structured_response_schema"

/-- `GroqProvider.addRemainingOptions`. -/
def groqAddRemainingOptions (p : GroqProvider) (body : List (String × JValue))
    (options : Options) : List (String × JValue) :=
  let body := p.options.foldl
    (fun b kv => if groqIsGlobalOption kv.1 then b else alInsert b kv.1 kv.2.toJValue)
    body
  options.foldl
    (fun b kv => if groqIsGlobalOption kv.1 then b else alInsert b kv.1 kv.2.toJValue)
    body

/-- `GroqProvider.PrepareRequest` body: structured output is attached only
when a schema is present and the options' `stream` value is not `true`. -/
def groqRequestBody (p : GroqProvider) (req : Request) (options : Options) :
    List (String × JValue) :=
  let model := resolveModel p.model req options
  let body := groqInitializeRequestBodyWithModel model
  let body := groqAddMessages body req.messages
  let body := if req.systemPrompt ≠ "" then groqAddSystemPrompt body req.systemPrompt else body
  let streamIsTrue :=
    match alLookup options "stream" with
    | some (.jval (.bool true)) => true
    | _ => false
  let body :=
    match req.responseSchema with
    | some schema => if streamIsTrue then body else groqAddStructuredResponse body schema
    | none => body
  groqAddRemainingOptions p body options

/-- `GroqProvider.PrepareRequest`. -/
def groqPrepareRequest (p : GroqProvider) (req : Request) (options : Options) :
    Except String JValue :=
  .ok (.obj (groqRequestBody p req options))

/-- The result of a Go call that either returns normally or panics. -/
inductive GoResult (α : Type) where
  | ok (a : α)
  | panicked

/-- `GroqProvider.PrepareStreamRequest`: checks the Streaming capability,
allocates an options map when the caller passed nil, sets the stream flag
and delegates to `PrepareRequest` (never panics). -/
def groqPrepareStreamRequest (reg : RegistryV1) (p : GroqProvider) (req : Request)
    (options : Option Options) : Except String JValue :=
  let model := resolveModel p.model req (options.getD [])
  if groqHasCapability reg p capStreaming model then
    let opts := alInsert (options.getD []) "stream" (.jval (.bool true))
    .ok (.obj (groqRequestBody p req opts))
  else .error "streaming is not supported by this provider"

/-- `GroqProvider.ParseResponse` on a decoded body. -/
def groqParseResponse (body : JValue) : Except String Response :=
  match body with
  | .obj fields =>
    let choices := jGetArr fields "choices"
    let content :=
      match choices.head? with
      | some (.obj cf) =>
        match jGetObj cf "message" with
        | some mf => jGetStr mf "content"
        | none => ""
      | _ => ""
    if choices.length = 0 ∨ content = "" then .error "empty response from API"
    else
      let usage :=
        match jGetObj fields "usage" with
        | some uf => some (NewUsage (jGetInt uf "prompt_tokens") 0
            (jGetInt uf "completion_tokens") 0 0)
        | none => none
      .ok { content := some content, usage := usage }
  | _ => .error "error parsing response"

/-! ## Ollama adapter (src/unnamed/part_005, first file) -/

/-- `OllamaProvider` state. -/
structure OllamaProvider where
  endpoint : String := "http://localhost:11434"
  model : String := ""
  extraHeaders : List (String × String) := []
  options : Options := []

/-- `NewOllamaProvider` (the API key is ignored). -/
def newOllamaProvider (model : String)
    (extraHeaders : List (String × String)) : OllamaProvider :=
  { endpoint := "http://localhost:11434", model := model,
    extraHeaders := extraHeaders, options := [] }

/-- Go `strings.TrimSpace`. -/
def goTrimSpace (s : String) : String :=
  String.mk (((s.toList.dropWhile Char.isWhitespace).reverse.dropWhile
    Char.isWhitespace).reverse)

/-- `OllamaProvider.PrepareRequest` body: messages collapse into a single
prompt string with an optional `System:` preamble, then all options are
copied in unfiltered. -/
def ollamaRequestBody (p : OllamaProvider) (req : Request) (options : Options) :
    List (String × JValue) :=
  let model := resolveModel p.model req options
  let body : List (String × JValue) := [("model", .str model)]
  let body :=
    if req.messages.length > 0 then
      let prompt :=
        (if req.systemPrompt ≠ "" then "System: " ++ req.systemPrompt ++ "\n\n" else "")
          ++ String.join (req.messages.map (fun m => m.role ++ ": " ++ m.content ++ "\n\n"))
      alInsert body "prompt" (.str (goTrimSpace prompt))
    else body
  options.foldl (fun b kv => alInsert b kv.1 kv.2.toJValue) body

/-- `OllamaProvider.PrepareRequest`. -/
def ollamaPrepareRequest (p : OllamaProvider) (req : Request) (options : Options) :
    Except String JValue :=
  .ok (.obj (ollamaRequestBody p req options))

/-- `OllamaProvider.PrepareStreamRequest`: the first statement writes the
stream flag into the caller's options map with no nil-guard, so a nil map
makes the call panic instead of returning. -/
def ollamaPrepareStreamRequest (p : OllamaProvider) (req : Request)
    (options : Option Options) : GoResult JValue :=
  match options with
  | none => .panicked
  | some opts =>
    .ok (.obj (ollamaRequestBody p req (alInsert opts "stream" (.jval (.bool true)))))

/-- The NDJSON loop of `OllamaProvider.ParseResponse`, accumulating text
and the last positive usage counts and stopping at `done:true`. -/
def ollamaParseLoop : List JValue → String → Int → Int → Except String (String × Int × Int)
  | [], text, pe, ec => .ok (text, pe, ec)
  | j :: rest, text, pe, ec =>
    match j with
    | .obj fs =>
      let text := text ++ jGetStr fs "response"
      let pe := if jGetInt fs "prompt_eval_count" > 0 then jGetInt fs "prompt_eval_count" else pe
      let ec := if jGetInt fs "eval_count" > 0 then jGetInt fs "eval_count" else ec
      if jGetBool fs "done" then .ok (text, pe, ec)
      else ollamaParseLoop rest text pe ec
    | _ => .error "error parsing Ollama response"

/-- `OllamaProvider.ParseResponse` over the decoded NDJSON objects of the
body: it never reports an empty payload — it returns a `Response` whose
text is whatever was concatenated (possibly empty), with usage attached
only when a positive count was seen. -/
def ollamaParseResponse (objs : List JValue) : Except String Response :=
  match ollamaParseLoop objs "" 0 0 with
  | .error e => .error e
  | .ok (text, pe, ec) =>
    .ok { content := some text,
          usage := if pe > 0 ∨ ec > 0 then some (NewUsage pe 0 ec 0 0) else none }

/-! ## Deep key search used for the schema-meta-key claims -/

mutual

/-- Whether `key` occurs as an object key anywhere inside a JSON value. -/
def containsKeyDeep (key : String) : JValue → Bool
  | .obj fields => containsKeyFields key fields
  | .arr elems => containsKeyElems key elems
  | _ => false

/-- Key search over the fields of an object. -/
def containsKeyFields (key : String) : List (String × JValue) → Bool
  | [] => false
  | (k, v) :: rest =>
    k == key || containsKeyDeep key v || containsKeyFields key rest

/-- Key search over the elements of an array. -/
def containsKeyElems (key : String) : List JValue → Bool
  | [] => false
  | v :: rest => containsKeyDeep key v || containsKeyElems key rest

end

/-- A response schema carrying the `$schema` and `$id` meta keys. -/
def c3schema : JValue := .obj
  [("$schema", .str "https://json-schema.org/draft/2020-12/schema"),
   ("$id", .str "https://example.com/schema"),
   ("type", .str "object"),
   ("properties", .obj [("x", .obj [("type", .str "string")])])]

/-- A structured-output request with that schema. -/
def c3req : Request :=
  { messages := [{ role := "user", content := "hi" }], responseSchema := some c3schema }

/-- C3: the Gemini adapter transmits the response schema verbatim — the
prepared body still contains the `$schema` and `$id` keys (the
marshal-and-strip step is commented out and `stripMetaDeep` has no caller),
contradicting the required stripping. -/
theorem c3_gemini_meta_keys_transmitted :
    containsKeyDeep "$schema"
        (.obj (geminiRequestBody (newGeminiProvider "k" "gemini-1.5-pro" []) c3req []))
      = true
      ∧ containsKeyDeep "$id"
          (.obj (geminiRequestBody (newGeminiProvider "k" "gemini-1.5-pro" []) c3req []))
        = true := by
  exact ⟨rfl, rfl⟩

/-- C2 counterexample: with an empty registry, no Streaming descriptor is
registered for (mistral, mistral-large-latest) or (cohere, command-r), yet
both `PrepareStreamRequest` implementations return a request body instead
of a CapabilityNotSupported error. -/
theorem c2_mistral_cohere_no_streaming_check :
    hasCapabilityV2 [] "mistral" "mistral-large-latest" .streaming = false
      ∧ isOkE (mistralPrepareStreamRequest []
          (newMistralProvider "k" "mistral-large-latest" [])
          { messages := [{ role := "user", content := "hi" }] } []) = true
      ∧ hasCapabilityV2 [] "cohere" "command-r" .streaming = false
      ∧ isOkE (coherePrepareStreamRequest []
          (newCohereProvider "k" "command-r" [])
          { messages := [{ role := "user", content := "hi" }] } []) = true := by
  exact ⟨rfl, rfl, rfl, rfl⟩

/-- C2 amended: the Anthropic, Groq, OpenAI and Gemini adapters fail fast
with the streaming-unsupported error whenever the resolved model has no
registered Streaming descriptor; the Mistral and Cohere adapters perform no
such check and always produce a request body. -/
theorem c2_streaming_check_amended :
    (∀ (r1 : RegistryV1) (pA : AnthropicProvider) (req : Request) (opts : Options),
        anthropicHasCapability r1 pA capStreaming (resolveModel pA.model req opts) = false →
          anthropicPrepareStreamRequest r1 pA req opts
            = .error "streaming is not supported by this provider")
      ∧ (∀ (r1 : RegistryV1) (pG : GroqProvider) (req : Request) (opts : Option Options),
          groqHasCapability r1 pG capStreaming (resolveModel pG.model req (opts.getD [])) = false →
            groqPrepareStreamRequest r1 pG req opts
              = .error "streaming is not supported by this provider")
      ∧ (∀ (r2 : RegistryV2) (pO : OpenAIProvider) (req : Request) (opts : Options),
          openaiHasCapability r2 pO .streaming (resolveModel pO.model req opts) = false →
            openaiPrepareStreamRequest r2 pO req opts
              = .error "streaming is not supported by this provider")
      ∧ (∀ (r2 : RegistryV2) (pGm : GeminiProvider) (req : Request) (opts : Options),
          geminiHasCapability r2 pGm .streaming (resolveModel pGm.model req opts) = false →
            geminiPrepareStreamRequest r2 pGm req opts
              = .error "streaming is not supported by this provider")
      ∧ (∀ (r2 : RegistryV2) (pM : MistralProvider) (req : Request) (opts : Options),
          isOkE (mistralPrepareStreamRequest r2 pM req opts) = true)
      ∧ (∀ (r2 : RegistryV2) (pC : CohereProvider) (req : Request) (opts : Options),
          isOkE (coherePrepareStreamRequest r2 pC req opts) = true) := by
  refine ⟨?_, ?_, ?_, ?_, ?_, ?_⟩
  · intro r1 pA req opts h
    simp [anthropicPrepareStreamRequest, h]
  · intro r1 pG req opts h
    simp [groqPrepareStreamRequest, h]
  · intro r2 pO req opts h
    simp [openaiPrepareStreamRequest, h]
  · intro r2 pGm req opts h
    simp [geminiPrepareStreamRequest, h]
  · intro r2 pM req opts
    rfl
  · intro r2 pC req opts
    rfl

/-- C2 amended witness: all six conjuncts at concrete providers, the empty
registry, the empty request and empty options. -/
theorem c2_streaming_check_amended_witness :
    anthropicPrepareStreamRequest [] (newAnthropicProvider "k" "claude-3-opus" []) {} []
        = .error "streaming is not supported by this provider"
      ∧ groqPrepareStreamRequest [] (newGroqProvider "k" "llama3-8b-8192" []) {} none
          = .error "streaming is not supported by this provider"
      ∧ openaiPrepareStreamRequest [] (newOpenAIProvider "k" "gpt-4" []) {} []
          = .error "streaming is not supported by this provider"
      ∧ geminiPrepareStreamRequest [] (newGeminiProvider "k" "gemini-1.5-pro" []) {} []
          = .error "streaming is not supported by this provider"
      ∧ isOkE (mistralPrepareStreamRequest [] (newMistralProvider "k" "m" []) {} []) = true
      ∧ isOkE (coherePrepareStreamRequest [] (newCohereProvider "k" "c" []) {} []) = true :=
  ⟨c2_streaming_check_amended.1 [] (newAnthropicProvider "k" "claude-3-opus" []) {} [] rfl,
   c2_streaming_check_amended.2.1 [] (newGroqProvider "k" "llama3-8b-8192" []) {} none rfl,
   c2_streaming_check_amended.2.2.1 [] (newOpenAIProvider "k" "gpt-4" []) {} [] rfl,
   c2_streaming_check_amended.2.2.2.1 [] (newGeminiProvider "k" "gemini-1.5-pro" []) {} [] rfl,
   c2_streaming_check_amended.2.2.2.2.1 [] (newMistralProvider "k" "m" []) {} [],
   c2_streaming_check_amended.2.2.2.2.2 [] (newCohereProvider "k" "c" []) {} []⟩

/-- C5 counterexample: the Ollama `ParseResponse` on the empty object
returns a successful `Response` with empty text and no usage, not an
EmptyResponse error. -/
theorem c5_ollama_empty_ok :
    ollamaParseResponse [JValue.obj []] = .ok { content := some "", usage := none } := by
  rfl

/-- C5 amended: on the vendor's structurally valid but semantically empty
payload `{}`, every adapter's `ParseResponse` returns an error — except
Ollama's, which returns a successful empty `Response`. -/
theorem c5_empty_payload_amended :
    isOkE (anthropicParseResponse (.obj [])) = false
      ∧ isOkE (openaiParseResponse (.obj [])) = false
      ∧ isOkE (groqParseResponse (.obj [])) = false
      ∧ isOkE (mistralParseResponse (.obj [])) = false
      ∧ isOkE (cohereParseResponse (.obj [])) = false
      ∧ isOkE (geminiParseResponse (.obj [])) = false
      ∧ ollamaParseResponse [JValue.obj []] = .ok { content := some "", usage := none } := by
  exact ⟨rfl, rfl, rfl, rfl, rfl, rfl, rfl⟩

/-- The Streaming descriptor groq registers for llama3-8b-8192. -/
def c10cfg : StreamingConfig :=
  { supportsSSE := true
    bufferSize := 4096
    chunkDelimiter := "data: "
    supportsUsage := false }

/-- The registry state holding that descriptor. -/
def c10reg : RegistryV1 :=
  registerV1 [] "groq" "llama3-8b-8192" capStreaming (some (.streaming c10cfg))

/-- C10: Ollama's `PrepareStreamRequest` writes the stream flag into the
caller's options map without a nil guard, so a nil options map panics for
every provider state and request; Groq's, which allocates an empty map
first, returns a request body on the same nil input. -/
theorem c10_ollama_nil_options_panics :
    (∀ (p : OllamaProvider) (req : Request),
        ollamaPrepareStreamRequest p req none = .panicked)
      ∧ isOkE (groqPrepareStreamRequest c10reg (newGroqProvider "k" "llama3-8b-8192" [])
          { messages := [{ role := "user", content := "hi" }] } none) = true := by
  exact ⟨fun p req => rfl, rfl⟩
